import Mathlib

/-!
# A shallow embedding of `src/lib/facil/fiobj/mustache_parser.h`

This file models the mustache template compiler (`mustache_load`) and the
bytecode renderer (`mustache_build`) of the C-Server-Tools repository, and
proves or refutes the frozen claims about them.

Conventions used throughout the embedding:

* Bytes are `Nat` values (each `< 256` where produced by the code).
* C unsigned overflow is modelled with explicit `% 2^w` at the points where
  the C code stores into a `uint16_t` / `uint32_t` field.
* Pointer differences (`ptrdiff_t`) are modelled as `Int` subtraction,
  converted with an explicit two's-complement reduction where the C code
  stores them into an unsigned field or passes them as `size_t`.
* `strstr` over the NUL-terminated data buffer is modelled by searching the
  byte list up to (excluding) the first `0` byte.
* The loader is embedded for the in-memory-data entry point with no template
  files present on disk (every `stat` fails), which is the environment the
  data-only claims are settled in; `mustache__load_file` is specialised
  accordingly and the loader's parse stack therefore only ever holds the
  root frame.
* The renderer's host callbacks are modelled as pure functions; the trace of
  callback invocations (with their return values) is the renderer's
  observable behaviour.
-/

namespace Mustache

/-- C `isspace` on the byte values that can occur in template data:
space (32) and `\t \n \v \f \r` (9..13). -/
def isSpaceByte (b : Nat) : Bool :=
  b == 32 || (9 ≤ b && b ≤ 13)

/-- Reduction of an `Int` into `w`-bit unsigned range, as happens when the C
code stores a pointer difference or wider value into an unsigned field. -/
def toUnsigned (w : Nat) (i : Int) : Nat :=
  (i % ((2 : Int) ^ w)).toNat

/-- `uint16_t` store. -/
def u16 (i : Int) : Nat := toUnsigned 16 i

/-- `uint32_t` store. -/
def u32 (i : Int) : Nat := toUnsigned 32 i

/-- `size_t` (64-bit) conversion. -/
def usize (i : Int) : Nat := toUnsigned 64 i

/-- Byte read `p[i]` from a byte list (reads past the model's list return 0;
the C code never relies on those in the runs we reason about). -/
def byteAt (l : List Nat) (i : Nat) : Nat := l.getD i 0

/-- `memcmp(a + i, b + j, n) == 0`: the `n` bytes of `a` at `i` equal the
`n` bytes of `b` at `j`. -/
def bytesEq (a : List Nat) (i : Nat) (b : List Nat) (j n : Nat) : Bool :=
  decide ((a.drop i).take n = (b.drop j).take n)

/- *************************************************************************
Data segment sub-headers (`mustache__data_segment_s`)
************************************************************************* -/

/-- The decoded per-template sub-header, `mustache__data_segment_s`.
`filename` is kept as the byte offset of the name inside the blob is implied
by the read position, so only the four numeric fields are stored here. -/
structure DataSegment where
  inst_start : Nat
  next : Nat
  filename_len : Nat
  path_len : Nat
  deriving Repr, DecidableEq

/-- `mustache__data_segment_write`: the exact byte image the C code writes,
including the trailing NUL after the file name.  Note the shifts: each
successive byte is shifted by 1, 2, 3 bits (not 8, 16, 24). -/
def mustache__data_segment_write (seg : DataSegment) (filename : List Nat) :
    List Nat :=
  [seg.inst_start &&& 255,
   (seg.inst_start >>> 1) &&& 255,
   (seg.inst_start >>> 2) &&& 255,
   (seg.inst_start >>> 3) &&& 255,
   seg.next &&& 255,
   (seg.next >>> 1) &&& 255,
   (seg.next >>> 2) &&& 255,
   (seg.next >>> 3) &&& 255,
   seg.filename_len &&& 255,
   (seg.filename_len >>> 1) &&& 255,
   seg.path_len &&& 255,
   (seg.path_len >>> 1) &&& 255] ++ filename ++ [0]

/-- `mustache__data_segment_length`. -/
def mustache__data_segment_length (filename_len : Nat) : Nat :=
  13 + filename_len

/-- `mustache__data_segment_read`, decoding the sub-header found at byte
offset `off` of the data blob: `data[0] | (data[1] << 1) | (data[2] << 2) |
(data[3] << 3)` and so on. -/
def mustache__data_segment_read (blob : List Nat) (off : Nat) : DataSegment :=
  { inst_start := byteAt blob off |||
      (byteAt blob (off + 1) <<< 1) |||
      (byteAt blob (off + 2) <<< 2) |||
      (byteAt blob (off + 3) <<< 3)
    next := byteAt blob (off + 4) |||
      (byteAt blob (off + 5) <<< 1) |||
      (byteAt blob (off + 6) <<< 2) |||
      (byteAt blob (off + 7) <<< 3)
    filename_len := byteAt blob (off + 8) ||| (byteAt blob (off + 9) <<< 1)
    path_len := byteAt blob (off + 10) ||| (byteAt blob (off + 11) <<< 1) }

/- *************************************************************************
The sub-header chain walk of `mustache__file_is_loaded`
************************************************************************* -/

/-- One walk of the sub-header chain exactly as the loop in
`mustache__file_is_loaded` performs it: start at offset 0, read the
sub-header at the current offset, advance the byte pointer by the decoded
`next` field (`data += seg.next`), and stop once the offset reaches the data
blob length.  Returns the list of offsets at which a sub-header was read and
the final value of the walking offset.  `fuel` bounds the recursion; the C
loop has no bound of its own. -/
def subHeaderWalk (blob : List Nat) (blobLen : Nat) :
    Nat → Nat → List Nat × Nat
  | 0, off => ([], off)
  | fuel + 1, off =>
    if off < blobLen then
      let seg := mustache__data_segment_read blob off
      let rest := subHeaderWalk blob blobLen fuel (off + seg.next)
      (off :: rest.1, rest.2)
    else ([], off)

/-- `mustache__file_is_loaded`: walk the chain comparing each stored file
name with `name`; return the decoded `inst_start` on a match, `none`
(C: `(uint32_t)-1`) when the walk leaves the blob. -/
def mustache__file_is_loaded (blob : List Nat) (blobLen : Nat)
    (name : List Nat) : Nat → Nat → Option Nat
  | 0, _ => none
  | fuel + 1, off =>
    if off < blobLen then
      let seg := mustache__data_segment_read blob off
      if seg.filename_len = name.length &&
          bytesEq blob (off + 12) name 0 name.length then
        some seg.inst_start
      else
        mustache__file_is_loaded blob blobLen name fuel (off + seg.next)
    else none

/- *************************************************************************
Instructions (`mustache__instruction_s`)
************************************************************************* -/

/-- The instruction tag enum of `mustache__instruction_s`. -/
inductive MTag where
  | writeText
  | writeArg
  | writeArgUnescaped
  | sectionStart
  | sectionStartInv
  | sectionEnd
  | sectionGoto
  deriving Repr, DecidableEq

/-- The `data` payload of an instruction.  `end_` models the C field
`end` (`uint32_t`), `len` is `uint32_t`, `name_pos` is `uint32_t`,
`name_len` and `offset` are `uint16_t`. -/
structure MData where
  end_ : Nat := 0
  len : Nat := 0
  name_pos : Nat := 0
  name_len : Nat := 0
  offset : Nat := 0
  deriving Repr, DecidableEq

/-- One instruction. -/
structure MInstr where
  tag : MTag
  data : MData := {}
  deriving Repr, DecidableEq

instance : Inhabited MInstr := ⟨⟨.writeText, {}⟩⟩

/-- The consolidated compiled image: header counts are implied by the two
lists (instruction vector and data blob). -/
structure MImage where
  instructions : List MInstr
  data : List Nat
  deriving Repr, DecidableEq

/-- The error enum `mustache_error_en`. -/
inductive MErr where
  | ok
  | tooDeep
  | closureMismatch
  | fileNotFound
  | fileTooBig
  | fileNameTooLong
  | fileNameTooShort
  | emptyTemplate
  | delimiterTooLong
  | nameTooLong
  | unknown
  | userError
  deriving Repr, DecidableEq

/- *************************************************************************
C string search (`strstr`) and whitespace trimming
************************************************************************* -/

/-- Position of the first occurrence of `needle` in `hay` (both already cut
at their NUL terminators), or `none`.  An empty needle matches at 0, as with
C `strstr`. -/
def listFindSub (needle : List Nat) : List Nat → Option Nat
  | [] => if needle.isPrefixOf ([] : List Nat) then some 0 else none
  | a :: t =>
    if needle.isPrefixOf (a :: t) then some 0
    else (listFindSub needle t).map (· + 1)

/-- `strstr(blob + start, needle)` over the NUL-terminated template buffer:
the haystack runs from `start` up to the first 0 byte, the needle (itself a
C string) up to its first 0 byte.  Returns an absolute byte offset. -/
def cstrFind (blob : List Nat) (start : Nat) (needle : List Nat) :
    Option Nat :=
  (listFindSub (needle.takeWhile (· ≠ 0))
      ((blob.drop start).takeWhile (· ≠ 0))).map (start + ·)

/-- `MUSTACHE_IGNORE_WHITESPACE(p, 1)`: advance over whitespace bytes.
`fuel` bounds the scan; callers pass the blob length, which the forward scan
cannot pass because the buffer's final byte is a NUL. -/
def trimFwd (blob : List Nat) : Nat → Nat → Nat
  | 0, i => i
  | fuel + 1, i =>
    if isSpaceByte (byteAt blob i) then trimFwd blob fuel (i + 1) else i

/-- `MUSTACHE_IGNORE_WHITESPACE(p, -1)`: walk backwards over whitespace.
The C scan would run off the front of the buffer on an all-space prefix; the
runs we reason about never do, and the model stops at offset 0. -/
def trimBwd (blob : List Nat) : Nat → Nat → Nat
  | 0, i => i
  | fuel + 1, i =>
    if isSpaceByte (byteAt blob i) && i ≠ 0 then trimBwd blob fuel (i - 1)
    else i

/- *************************************************************************
Loader state (`mustache__loader_stack_s`)
************************************************************************* -/

/-- One frame of the loader's parse stack. -/
structure LoaderFrame where
  data_start : Nat
  data_pos : Nat
  data_end : Nat
  open_sections : Nat
  del_start : List Nat
  del_end : List Nat
  deriving Repr, DecidableEq

/-- The loader state: growing instruction vector, growing data blob, the
`uint32_t` running blob length (`s->data_len`, mirrored into the header's
`data_length`), the parse stack (top frame first; `s->index` is the list
length), and the error out-parameter. -/
structure LoaderState where
  instructions : List MInstr
  blob : List Nat
  data_len : Nat
  frames : List LoaderFrame
  err : MErr
  deriving Repr, DecidableEq

/-- `mustache__instruction_push`.  Fails (returning `false` and setting
`MUSTACHE_ERR_TOO_DEEP`) once the instruction count reaches `INT32_MAX`;
several call sites in the C code ignore this failure. -/
def mustache__instruction_push (s : LoaderState) (inst : MInstr) :
    LoaderState × Bool :=
  if s.instructions.length ≥ 2147483647 then ({s with err := .tooDeep}, false)
  else ({s with instructions := s.instructions ++ [inst]}, true)

/-- `s->i[i].data.end = v` (an out-of-range index would be an out-of-bounds
write in C; `List.set` leaves the list unchanged there). -/
def patchInstrEnd (l : List MInstr) (i : Nat) (v : Nat) : List MInstr :=
  l.set i (let o := l.getD i default; {o with data := {o.data with end_ := v}})

/-- The `path_len` computation of `mustache__load_data`: the index just past
the last `/` (47) or `\` (92) in the name, or 0. -/
def pathLenScan (name : List Nat) : Nat → Nat
  | 0 => 0
  | p + 1 =>
    if byteAt name p = 47 ∨ byteAt name p = 92 then p + 1
    else pathLenScan name p

/-- `mustache__load_data`: append a sub-header and the template bytes to the
data blob, emit the `SECTION_START` pseudo-instruction, push a parse frame
with the default `{{` / `}}` delimiters. -/
def mustache__load_data (s : LoaderState) (name tdata : List Nat) :
    LoaderState × Bool :=
  let old_len := s.data_len
  if old_len + tdata.length > 4294967295 then
    ({s with err := .tooDeep}, false)
  else
    let seg : DataSegment :=
      { inst_start := s.instructions.length
        next := u32 ((old_len : Int) + tdata.length +
          mustache__data_segment_length name.length)
        filename_len := u16 (name.length : Int)
        path_len := u16 (pathLenScan name name.length : Int) }
    let dlen' := (old_len + tdata.length +
      mustache__data_segment_length name.length) % 4294967296
    let blobBase := s.blob.take old_len ++
      mustache__data_segment_write seg name ++ tdata
    let blob' := if dlen' = blobBase.length then blobBase ++ [0]
      else blobBase.set dlen' 0
    let s1 := {s with blob := blob', data_len := dlen'}
    let s2 := (mustache__instruction_push s1 ⟨.sectionStart, {}⟩).1
    if s2.frames.length + 1 ≥ 96 then ({s2 with err := .tooDeep}, false)
    else
      let fr : LoaderFrame :=
        { data_start := old_len
          data_pos := (old_len + mustache__data_segment_length name.length) %
            4294967296
          data_end := dlen'
          open_sections := 0
          del_start := [123, 123]
          del_end := [125, 125] }
      ({s2 with frames := fr :: s2.frames}, true)

/-- `mustache__load_file`, specialised to an environment with no template
files on disk: every `stat` in the path-probing loop fails (the loop only
rewrites the scratch `s->path` buffer), so the only remaining possibility is
the virtual-root check against the first sub-header, which emits a
`SECTION_GOTO` to instruction 0; otherwise `MUSTACHE_ERR_FILE_NOT_FOUND`.
The partial's name lives in the blob at `namePos`; `nameLen` is the raw
`size_t` length computed by the caller. -/
def mustache__load_file (s : LoaderState) (namePos nameLen : Nat) :
    LoaderState × Bool :=
  if nameLen = 0 then ({s with err := .fileNameTooShort}, false)
  else if nameLen ≥ 8192 then ({s with err := .fileNameTooLong}, false)
  else if s.blob ≠ [] then
    let seg := mustache__data_segment_read s.blob 0
    if seg.filename_len = nameLen ∧
        bytesEq s.blob 12 s.blob namePos nameLen then
      mustache__instruction_push s
        ⟨.sectionGoto, {len := 0, end_ := s.instructions.length}⟩
    else ({s with err := .fileNotFound}, false)
  else ({s with err := .fileNotFound}, false)

/-- The backward scan of the `/` (section close) case: starting at
instruction index `pos` and walking down to 0 (the C `do {--pos; …}
while (pos)` examines index 0 last), counting nested `SECTION_END`s, return
the index of the nearest unmatched `SECTION_START`/`SECTION_START_INV`. -/
def closureScan (instrs : List MInstr) : Nat → Nat → Option Nat
  | 0, nested =>
    match (instrs.getD 0 default).tag with
    | .sectionStart | .sectionStartInv => if nested = 0 then some 0 else none
    | _ => none
  | pos + 1, nested =>
    match (instrs.getD (pos + 1) default).tag with
    | .sectionEnd => closureScan instrs pos (nested + 1)
    | .sectionStart | .sectionStartInv =>
      if nested = 0 then some (pos + 1) else closureScan instrs pos (nested - 1)
    | _ => closureScan instrs pos nested

/-- The divider scan of the `=` (set delimiters) case:
`while (div < end && !isspace(*div)) ++div`. -/
def divScan (blob : List Nat) : Nat → Nat → Nat → Nat
  | 0, d, _ => d
  | fuel + 1, d, endPos =>
    if d < endPos ∧ ¬ isSpaceByte (byteAt blob d) then
      divScan blob fuel (d + 1) endPos
    else d

/- *************************************************************************
One iteration of the parsing loop of `mustache_load` (lines 935-1162)
************************************************************************* -/

/-- One iteration of the inner parsing loop: find the next tag with the
current delimiters, emit the pending text instruction, dispatch on the tag's
first byte.  Returns the new state and `true` to keep looping, or the state
with `err` set and `false` on the error paths.  The top parse frame is
`f`, the remaining stack `rest`. -/
def mustache__parse_iteration (s : LoaderState) (f : LoaderFrame)
    (rest : List LoaderFrame) : LoaderState × Bool :=
  let tfuel := s.blob.length + 1
  let start := f.data_pos
  -- `beg = strstr(start, del_start)`
  let begOpt := cstrFind s.blob start f.del_start
  match begOpt with
  | none =>
    -- no instructions left, only text
    let s1 := (mustache__instruction_push s
      ⟨.writeText,
       {name_pos := f.data_pos,
        name_len := u16 ((f.data_end : Int) - (f.data_pos : Int))}⟩).1
    ({s1 with frames := {f with data_pos := f.data_end} :: rest}, true)
  | some orgBeg =>
  if orgBeg ≥ f.data_end then
    let s1 := (mustache__instruction_push s
      ⟨.writeText,
       {name_pos := f.data_pos,
        name_len := u16 ((f.data_end : Int) - (f.data_pos : Int))}⟩).1
    ({s1 with frames := {f with data_pos := f.data_end} :: rest}, true)
  else
    -- text before the instruction
    let s1 := if orgBeg ≠ start then
        (mustache__instruction_push s
          ⟨.writeText,
           {name_pos := f.data_pos,
            name_len := u16 ((orgBeg : Int) - (start : Int))}⟩).1
      else s
    let beg1 := orgBeg + f.del_start.length
    -- `end = strstr(beg, del_end)`
    match cstrFind s1.blob beg1 f.del_end with
    | none => ({s1 with err := .closureMismatch}, false)
    | some endD =>
    if endD ≥ f.data_end then ({s1 with err := .closureMismatch}, false)
    else
    -- update the reading position in the stack (line 978)
    let newpos := u32 ((endD : Int) + (f.del_end.length : Int))
    let f1 := {f with data_pos := newpos}
    let b := byteAt s1.blob beg1
    if b = 33 then
      -- '!' comment, do nothing
      ({s1 with frames := f1 :: rest}, true)
    else if b = 61 then
      -- '=' define new separators
      let beg2 := beg1 + 1
      let endm := endD - 1
      if byteAt s1.blob endm ≠ 61 then ({s1 with err := .closureMismatch}, false)
      else
        let endm2 := endm - 1
        let begF := trimFwd s1.blob tfuel beg2
        let end4 := trimBwd s1.blob tfuel endm2 + 1
        let dv := divScan s1.blob tfuel begF end4
        if dv = end4 ∨ dv = begF then ({s1 with err := .closureMismatch}, false)
        else if dv - begF ≥ 11 then ({s1 with err := .delimiterTooLong}, false)
        else
          let ds := (s1.blob.drop begF).take (dv - begF)
          let dv2 := trimFwd s1.blob tfuel (dv + 1)
          if dv2 = end4 then ({s1 with err := .closureMismatch}, false)
          else if end4 - dv2 ≥ 11 then
            ({s1 with err := .delimiterTooLong}, false)
          else
            let de := (s1.blob.drop dv2).take (end4 - dv2)
            ({s1 with frames :=
              {f1 with del_start := ds, del_end := de} :: rest}, true)
    else if b = 94 ∨ b = 35 then
      -- '^' inverted section / '#' section start
      let begF := trimFwd s1.blob tfuel (beg1 + 1)
      let end4 := trimBwd s1.blob tfuel (endD - 1) + 1
      let f2 := {f1 with open_sections := f1.open_sections + 1}
      if f2.open_sections ≥ 96 then ({s1 with err := .tooDeep}, false)
      else
        -- the (broken) name-length guard: tests the name's *position*
        -- against UINT16_MAX and does not abort
        let s2 := if begF ≥ 65535 then {s1 with err := .nameTooLong} else s1
        let (s3, okP) := mustache__instruction_push s2
          ⟨(if b = 94 then .sectionStartInv else .sectionStart),
           {name_pos := u32 (begF : Int),
            name_len := u16 ((end4 : Int) - (begF : Int)),
            offset := u16 ((newpos : Int) - (begF : Int))}⟩
        if okP then ({s3 with frames := f2 :: rest}, true) else (s3, false)
    else if b = 62 then
      -- '>' partial template
      let begF := trimFwd s1.blob tfuel (beg1 + 1)
      let end4 := trimBwd s1.blob tfuel (endD - 1) + 1
      let (s2, okL) := mustache__load_file {s1 with frames := f1 :: rest}
        begF (usize ((end4 : Int) - (begF : Int)))
      (s2, okL)
    else if b = 47 then
      -- '/' section end
      let begF := trimFwd s1.blob tfuel (beg1 + 1)
      let end4 := trimBwd s1.blob tfuel (endD - 1) + 1
      if f1.open_sections = 0 then ({s1 with err := .closureMismatch}, false)
      else
        match (match s1.instructions.length with
          | 0 => none
          | n + 1 => closureScan s1.instructions n 0) with
        | none => ({s1 with err := .closureMismatch}, false)
        | some p =>
          let opener := s1.instructions.getD p default
          if (opener.data.name_len : Int) ≠ (end4 : Int) - (begF : Int) ∨
              ¬ bytesEq s1.blob begF s1.blob opener.data.name_pos
                opener.data.name_len then
            ({s1 with err := .closureMismatch}, false)
          else
            let newData :=
              {opener.data with
               end_ := s1.instructions.length,
               len := u32 ((orgBeg : Int) -
                 ((opener.data.name_pos : Int) + (opener.data.offset : Int)))}
            let instrs' := s1.instructions.set p {opener with data := newData}
            let s2 := {s1 with instructions := instrs'}
            let s3 := (mustache__instruction_push s2
              ⟨.sectionEnd, newData⟩).1
            ({s3 with frames :=
              {f1 with open_sections := f1.open_sections - 1} :: rest}, true)
    else
      -- '{' / '&' / ':' / '<' / default: variable output
      let f2 := if b = 123 ∧ byteAt s1.blob newpos = 125 ∧
          f.del_end.getD 0 0 = 125 ∧
          f.del_end.getD (f.del_end.length - 1) 0 = 125 then
          {f1 with data_pos := u32 ((newpos : Int) + 1)}
        else f1
      let escape : Bool := ¬ (b = 123 ∨ b = 38)
      let begT := if b = 123 ∨ b = 38 ∨ b = 58 ∨ b = 60 then beg1 + 1 else beg1
      let begF := trimFwd s1.blob tfuel begT
      let end4 := trimBwd s1.blob tfuel (endD - 1) + 1
      let s2 := (mustache__instruction_push s1
        ⟨(if escape then .writeArg else .writeArgUnescaped),
         {name_pos := u32 (begF : Int),
          name_len := u16 ((end4 : Int) - (begF : Int))}⟩).1
      ({s2 with frames := f2 :: rest}, true)

/- *************************************************************************
The outer loop of `mustache_load` and the public entry point
************************************************************************* -/

/-- The outer "while the stack is non-empty" loop of `mustache_load`:
run the parser on the top frame until its template is exhausted, then check
closures, back-patch the loader-injected `SECTION_START`, append the
template's `SECTION_END` and pop. -/
def mustache__parse_loop : Nat → LoaderState → LoaderState × Bool
  | 0, s => ({s with err := .unknown}, false)
  | fuel + 1, s =>
    match s.frames with
    | [] => (s, true)
    | f :: rest =>
      if f.data_pos < f.data_end then
        match mustache__parse_iteration s f rest with
        | (s', true) => mustache__parse_loop fuel s'
        | (s', false) => (s', false)
      else if f.open_sections ≠ 0 then
        ({s with err := .closureMismatch}, false)
      else
        let seg := mustache__data_segment_read s.blob f.data_start
        let instrs' :=
          patchInstrEnd s.instructions seg.inst_start s.instructions.length
        let s1 := {s with instructions := instrs'}
        let s2 := (mustache__instruction_push s1 ⟨.sectionEnd, {}⟩).1
        mustache__parse_loop fuel {s2 with frames := rest}

/-- `mustache_load` for the in-memory-data entry point (`args.data` set),
in an environment with no template files on disk.  Returns the consolidated
image and the error out-parameter.  On success the C code overwrites the
error out-parameter with `MUSTACHE_OK` even if an intermediate, non-aborting
error (such as the name-length guard) had stored a value there. -/
def mustache_load_data (filename tdata : List Nat) : Option MImage × MErr :=
  let s0 : LoaderState :=
    {instructions := [], blob := [], data_len := 0, frames := [], err := .ok}
  match mustache__load_data s0 filename tdata with
  | (s, false) => (none, s.err)
  | (s, true) =>
    match mustache__parse_loop (s.data_len + 200) s with
    | (s', false) => (none, s'.err)
    | (s', true) =>
      (some {instructions := s'.instructions, data := s'.blob.take s'.data_len},
        .ok)

/- *************************************************************************
The renderer (`mustache_build`)
************************************************************************* -/

/-- The client-visible section data (`mustache_section_s`): two opaque user
pointers, modelled as numbers. -/
structure MSection where
  udata1 : Nat
  udata2 : Nat
  deriving Repr, DecidableEq

/-- A render-stack frame (`mustache__section_stack_frame_s`). -/
structure MFrame where
  sec : MSection
  start : Nat
  end_ : Nat
  index : Nat
  count : Nat
  frame : Nat
  deriving Repr, DecidableEq

instance : Inhabited MFrame :=
  ⟨⟨⟨0, 0⟩, 0, 0, 0, 0, 0⟩⟩

/-- The five host callbacks, as pure (hence deterministic) functions.  Each
receives the client-visible section data and the relevant byte slice of the
image's data blob, and returns the C `int` / `int32_t` result. -/
structure MCallbacks where
  on_text : MSection → List Nat → Int
  on_arg : MSection → List Nat → Nat → Int
  on_section_test : MSection → List Nat → Nat → Int
  on_section_start : MSection → List Nat → Nat → Int

/-- One observable callback invocation (with its returned value), or the
`mustache_on_formatting_error(udata1, udata2)` cleanup call. -/
inductive MEvent where
  | evText (sec : MSection) (bytes : List Nat) (res : Int)
  | evArg (sec : MSection) (bytes : List Nat) (escape : Nat) (res : Int)
  | evTest (sec : MSection) (bytes : List Nat) (callable : Nat) (res : Int)
  | evStart (sec : MSection) (bytes : List Nat) (index : Nat) (res : Int)
  | evFormatError (udata1 udata2 : Nat)
  deriving Repr, DecidableEq

/-- The byte slice `data + name_pos`, `name_len` bytes, that an instruction
hands to a callback. -/
def nameSlice (img : MImage) (d : MData) : List Nat :=
  (img.data.drop d.name_pos).take d.name_len

/-- The shared "loop section or continue" path of the interpreter (`case
MUSTACHE_SECTION_END` of `mustache_build` and the fall-through from the
three section-opening tags).  `next` is the continuation re-entering the
main loop (with the `++s.pos` applied). -/
def mustache__section_loop (img : MImage) (cb : MCallbacks) (u1 u2 : Nat)
    (next : Nat → List MFrame → Int × MErr × List MEvent)
    (fs : List MFrame) : Int × MErr × List MEvent :=
  let top := fs.headD default
  if top.index < top.count then
    let pos' := top.start
    let top1 := {top with sec := (fs.getD 1 default).sec}
    let insP := img.instructions.getD pos' default
    if insP.data.name_pos ≠ 0 then
      let r := cb.on_section_start top1.sec (nameSlice img insP.data)
        top.index
      if r = -1 then
        (-1, .userError,
         [.evStart top1.sec (nameSlice img insP.data) top.index r,
          .evFormatError u1 u2])
      else
        let res := next (pos' + 1) ({top1 with index := top.index + 1} ::
          fs.tail)
        (res.1, res.2.1,
         .evStart top1.sec (nameSlice img insP.data) top.index r :: res.2.2)
    else
      next (pos' + 1) ({top1 with index := top.index + 1} :: fs.tail)
  else
    next (top.end_ + 1) fs.tail

/-- The interpreter loop of `mustache_build` (lines 795-882).  Arguments
after the fuel are the program counter `s.pos` and the render stack
(top frame first; `s.index` is `frames.length - 1`).  Returns the C return
value, the error out-parameter and the trace of callback invocations.
`fuel` bounds the loop; the C loop is unbounded (a crafted image can loop),
and exhaustion is reported as `MUSTACHE_ERR_UNKNOWN`. -/
def mustache__build_run (img : MImage) (cb : MCallbacks) (u1 u2 : Nat) :
    Nat → Nat → List MFrame → Int × MErr × List MEvent
  | 0, _, _ => (-1, .unknown, [])
  | fuel + 1, pos, frames =>
    if pos < img.instructions.length then
      let ins := img.instructions.getD pos default
      let sectionLoop : List MFrame → Int × MErr × List MEvent :=
        mustache__section_loop img cb u1 u2
          (fun p fs => mustache__build_run img cb u1 u2 fuel p fs)
      match ins.tag with
      | .writeText =>
        let sec := (frames.headD default).sec
        let r := cb.on_text sec (nameSlice img ins.data)
        if r ≠ 0 then
          (-1, .userError,
           [.evText sec (nameSlice img ins.data) r, .evFormatError u1 u2])
        else
          let res := mustache__build_run img cb u1 u2 fuel (pos + 1) frames
          (res.1, res.2.1, .evText sec (nameSlice img ins.data) r :: res.2.2)
      | .writeArg =>
        let sec := (frames.headD default).sec
        let r := cb.on_arg sec (nameSlice img ins.data) 1
        if r ≠ 0 then
          (-1, .userError,
           [.evArg sec (nameSlice img ins.data) 1 r, .evFormatError u1 u2])
        else
          let res := mustache__build_run img cb u1 u2 fuel (pos + 1) frames
          (res.1, res.2.1,
           .evArg sec (nameSlice img ins.data) 1 r :: res.2.2)
      | .writeArgUnescaped =>
        let sec := (frames.headD default).sec
        let r := cb.on_arg sec (nameSlice img ins.data) 0
        if r ≠ 0 then
          (-1, .userError,
           [.evArg sec (nameSlice img ins.data) 0 r, .evFormatError u1 u2])
        else
          let res := mustache__build_run img cb u1 u2 fuel (pos + 1) frames
          (res.1, res.2.1,
           .evArg sec (nameSlice img ins.data) 0 r :: res.2.2)
      | .sectionEnd => sectionLoop frames
      | tag =>
        -- SECTION_GOTO / SECTION_START / SECTION_START_INV
        if frames.length - 1 + 1 ≥ 96 then
          (-1, .tooDeep, [.evFormatError u1 u2])
        else
          let top := frames.headD default
          let fr0 : MFrame :=
            { sec := top.sec
              start := if tag = .sectionGoto then ins.data.len else pos
              end_ := ins.data.end_
              index := 0
              count := 1
              frame := frames.length }
          if ins.data.name_pos ≠ 0 then
            let callable : Nat := if tag = .sectionStart then 1 else 0
            let val := cb.on_section_test fr0.sec (nameSlice img ins.data)
              callable
            if val = -1 then
              (-1, .userError,
               [.evTest fr0.sec (nameSlice img ins.data) callable val,
                .evFormatError u1 u2])
            else
              let val2 : Int :=
                if tag = .sectionStartInv then (if val = 0 then 1 else 0)
                else val
              let res := sectionLoop ({fr0 with count := u32 val2} :: frames)
              (res.1, res.2.1,
               .evTest fr0.sec (nameSlice img ins.data) callable val ::
                 res.2.2)
          else
            sectionLoop (fr0 :: frames)
    else (0, .ok, [])

/-- `mustache_build`: set up the root frame (inheriting the caller's
`udata1` / `udata2` and the `end` of instruction 0) and run the loop. -/
def mustache_build (img : MImage) (cb : MCallbacks) (u1 u2 : Nat)
    (fuel : Nat) : Int × MErr × List MEvent :=
  let root : MFrame :=
    { sec := ⟨u1, u2⟩
      start := 0
      end_ := (img.instructions.getD 0 default).data.end_
      index := 0
      count := 0
      frame := 0 }
  mustache__build_run img cb u1 u2 fuel 0 [root]

/- *************************************************************************
`mustache_section_text`
************************************************************************* -/

/-- `mustache_section_text`.  The C function recovers the owning render
stack from the section handle by pointer arithmetic on the `frame` field;
the model receives the image and the stack's current instruction index
`pos` directly.  `sectionGiven` / `pLenGiven` model the two NULL-argument
checks (`!section || !p_len`).  The result is `some` of the returned
pointer (as a blob offset paired with the instruction's `len`, `none`
standing for a NULL return) together with the value stored through
`p_len` — or `none` overall when the call has no defined result: every
failure jumps to the shared error path, whose `*p_len = 0` store
dereferences `p_len`, so entering it with `p_len == NULL` is a NULL
write (undefined behaviour), not a graceful NULL return. -/
def mustache_section_text (img : MImage) (pos : Nat)
    (sectionGiven pLenGiven : Bool) :
    Option (Option (Nat × Nat) × Nat) :=
  if ¬ sectionGiven ∨ ¬ pLenGiven then
    if pLenGiven then some (none, 0) else none
  else
    let ins := img.instructions.getD pos default
    if ins.tag ≠ .sectionStart then some (none, 0)
    else some (some (ins.data.name_pos + ins.data.offset, ins.data.len),
      ins.data.len)

/- *************************************************************************
Toolkit lemmas for symbolic evaluation of the loader
************************************************************************* -/

/-- Reading a byte past an appended prefix. -/
theorem byteAt_append_right (xs ys : List Nat) (i : Nat) :
    byteAt (xs ++ ys) (xs.length + i) = byteAt ys i := by
  unfold byteAt
  rw [List.getD_eq_getElem?_getD, List.getD_eq_getElem?_getD,
    List.getElem?_append_right (Nat.le_add_right _ _),
    Nat.add_sub_cancel_left]

/-- Reading a byte inside an appended prefix. -/
theorem byteAt_append_left (xs ys : List Nat) (i : Nat) (h : i < xs.length) :
    byteAt (xs ++ ys) i = byteAt xs i := by
  unfold byteAt
  rw [List.getD_eq_getElem?_getD, List.getD_eq_getElem?_getD,
    List.getElem?_append, if_pos h]

/-- Reading a byte through `List.drop`. -/
theorem byteAt_drop (blob : List Nat) (i j : Nat) :
    byteAt (blob.drop i) j = byteAt blob (i + j) := by
  unfold byteAt
  rw [List.getD_eq_getElem?_getD, List.getD_eq_getElem?_getD,
    List.getElem?_drop]

/-- An in-range `getD` produces a member of the list. -/
theorem getD_mem (l : List Nat) (i : Nat) (h : i < l.length) (d : Nat) :
    l.getD i d ∈ l := by
  rw [List.getD_eq_getElem l d h]
  exact List.getElem_mem h

/-- `takeWhile` passes over a prefix all of whose elements satisfy the
predicate. -/
theorem takeWhile_append_all {p : Nat → Bool} (xs ys : List Nat)
    (h : ∀ b ∈ xs, p b = true) :
    (xs ++ ys).takeWhile p = xs ++ ys.takeWhile p := by
  induction xs with
  | nil => simp
  | cons a t ih =>
    have ha : p a = true := h a (List.mem_cons_self a t)
    simp only [List.cons_append, List.takeWhile_cons, ha, if_true]
    rw [ih (fun b hb => h b (List.mem_cons_of_mem a hb))]

/-- A needle that is a prefix of the haystack is found at 0. -/
theorem listFindSub_of_prefix {needle hay : List Nat}
    (h : needle.isPrefixOf hay) : listFindSub needle hay = some 0 := by
  cases hay with
  | nil => simp [listFindSub, h]
  | cons a t => simp [listFindSub, h]

/-- The search skips a region whose bytes all differ from the needle's
first byte. -/
theorem listFindSub_append_skip (n0 : Nat) (ntl xs ys : List Nat)
    (h : ∀ b ∈ xs, b ≠ n0) :
    listFindSub (n0 :: ntl) (xs ++ ys) =
      (listFindSub (n0 :: ntl) ys).map (· + xs.length) := by
  induction xs with
  | nil =>
    cases hfs : listFindSub (n0 :: ntl) ys <;> simp [hfs]
  | cons a t ih =>
    have ha : a ≠ n0 := h a (List.mem_cons_self a t)
    have hpre : (n0 :: ntl).isPrefixOf (a :: (t ++ ys)) = false := by
      simp [List.isPrefixOf]
      intro he
      exact absurd he.symm ha
    simp only [List.cons_append, listFindSub, List.append_eq, hpre,
      Bool.false_eq_true, if_false]
    rw [ih (fun b hb => h b (List.mem_cons_of_mem a hb))]
    cases hfs : listFindSub (n0 :: ntl) ys <;> simp [hfs] <;> omega

/-- Value of `cstrFind` when the region after `start` splits into a miss
region `xs` (no NULs, no occurrences of the needle's first byte) followed
by `ys`, at whose start the effective needle matches. -/
theorem cstrFind_spec (blob : List Nat) (start : Nat) (needle : List Nat)
    (n0 : Nat) (ntl xs ys : List Nat)
    (heff : needle.takeWhile (· ≠ 0) = n0 :: ntl)
    (hdrop : blob.drop start = xs ++ ys)
    (hxs : ∀ b ∈ xs, b ≠ n0 ∧ b ≠ 0)
    (hpre : (n0 :: ntl).isPrefixOf (ys.takeWhile (· ≠ 0))) :
    cstrFind blob start needle = some (start + xs.length) := by
  unfold cstrFind
  rw [heff, hdrop,
    takeWhile_append_all xs ys (fun b hb => decide_eq_true (hxs b hb).2),
    listFindSub_append_skip n0 ntl xs _ (fun b hb => (hxs b hb).1),
    listFindSub_of_prefix hpre]
  simp

/-- `trimFwd` halts immediately on a non-space byte. -/
theorem trimFwd_stop (blob : List Nat) (fuel i : Nat)
    (h : isSpaceByte (byteAt blob i) = false) :
    trimFwd blob (fuel + 1) i = i := by
  simp [trimFwd, h]

/-- `trimBwd` halts immediately on a non-space byte. -/
theorem trimBwd_stop (blob : List Nat) (fuel i : Nat)
    (h : isSpaceByte (byteAt blob i) = false) :
    trimBwd blob (fuel + 1) i = i := by
  simp [trimBwd, h]

/-- `uint32_t` stores below the modulus are exact. -/
theorem u32_of_lt (n : Nat) (h : n < 4294967296) : u32 (n : Int) = n := by
  unfold u32 toUnsigned
  rw [Int.emod_eq_of_lt (by positivity) (by exact_mod_cast h)]
  simp

/-- `uint16_t` stores below the modulus are exact. -/
theorem u16_of_lt (n : Nat) (h : n < 65536) : u16 (n : Int) = n := by
  unfold u16 toUnsigned
  rw [Int.emod_eq_of_lt (by positivity) (by exact_mod_cast h)]
  simp

/-- A `uint16_t` store of a natural number reduces to `% 2^16`. -/
theorem u16_natCast (n : Nat) : u16 (n : Int) = n % 65536 := by
  simp only [u16, toUnsigned]
  norm_num
  omega

/-- A `uint32_t` store of a natural number reduces to `% 2^32`. -/
theorem u32_natCast (n : Nat) : u32 (n : Int) = n % 4294967296 := by
  simp only [u32, toUnsigned]
  norm_num
  omega

/-- The byte image written by the data-segment writer is 13 bytes plus the
name. -/
theorem data_segment_write_length (seg : DataSegment) (fn : List Nat) :
    (mustache__data_segment_write seg fn).length = 13 + fn.length := by
  simp [mustache__data_segment_write]
  omega

/-- One parsing iteration of the outer loop. -/
theorem parse_loop_iter (fuel : Nat) (s s' : LoaderState) (f : LoaderFrame)
    (rest : List LoaderFrame) (hf : s.frames = f :: rest)
    (hlt : f.data_pos < f.data_end)
    (hit : mustache__parse_iteration s f rest = (s', true)) :
    mustache__parse_loop (fuel + 1) s = mustache__parse_loop fuel s' := by
  simp [mustache__parse_loop, hf, hlt, hit]

/-- The pop step of the outer loop, taken when the top frame is
exhausted with no open sections. -/
theorem parse_loop_pop (fuel : Nat) (s : LoaderState) (f : LoaderFrame)
    (rest : List LoaderFrame) (hf : s.frames = f :: rest)
    (hge : ¬ f.data_pos < f.data_end) (hopen : f.open_sections = 0) :
    mustache__parse_loop (fuel + 1) s =
      (let instrs1 := patchInstrEnd s.instructions
        (mustache__data_segment_read s.blob f.data_start).inst_start
        s.instructions.length
      let s2 := (mustache__instruction_push {s with instructions := instrs1}
        ⟨.sectionEnd, {}⟩).1
      mustache__parse_loop fuel {s2 with frames := rest}) := by
  simp [mustache__parse_loop, hf, hge, hopen]

/-- The outer loop returns once the parse stack is empty. -/
theorem parse_loop_done (fuel : Nat) (s : LoaderState) (hf : s.frames = []) :
    mustache__parse_loop (fuel + 1) s = (s, true) := by
  simp [mustache__parse_loop, hf]

/- *************************************************************************
Claim C2: sub-header encoding round trip
************************************************************************* -/

/-- Decoding after encoding with the 1/2/3-bit shifts recovers exactly the
low 11 bits of a 32-bit field. -/
theorem decode_encode_shift3 (x : Nat) (h : x < 2048) :
    ((x &&& 255) ||| (((x >>> 1) &&& 255) <<< 1) |||
    (((x >>> 2) &&& 255) <<< 2) ||| (((x >>> 3) &&& 255) <<< 3)) = x := by
  have h255 : (255 : Nat) = 2 ^ 8 - 1 := by norm_num
  apply Nat.eq_of_testBit_eq
  intro i
  simp only [Nat.testBit_or, Nat.testBit_and, Nat.testBit_shiftLeft,
    Nat.testBit_shiftRight, h255, Nat.testBit_two_pow_sub_one]
  rcases lt_or_ge i 11 with hi | hi
  · interval_cases i <;> simp
  · have hx : x.testBit i = false := by
      apply Nat.testBit_eq_false_of_lt
      calc x < 2048 := h
        _ = 2 ^ 11 := by norm_num
        _ ≤ 2 ^ i := Nat.pow_le_pow_right (by norm_num) hi
    have h1 : x.testBit (1 + (i - 1)) = false := by
      rwa [show 1 + (i - 1) = i by omega]
    have h2 : x.testBit (2 + (i - 2)) = false := by
      rwa [show 2 + (i - 2) = i by omega]
    have h3 : x.testBit (3 + (i - 3)) = false := by
      rwa [show 3 + (i - 3) = i by omega]
    simp [hx, h1, h2, h3]

/-- Decoding after encoding with the 1-bit shift recovers exactly the low
9 bits of a 16-bit field. -/
theorem decode_encode_shift1 (x : Nat) (h : x < 512) :
    ((x &&& 255) ||| (((x >>> 1) &&& 255) <<< 1)) = x := by
  have h255 : (255 : Nat) = 2 ^ 8 - 1 := by norm_num
  apply Nat.eq_of_testBit_eq
  intro i
  simp only [Nat.testBit_or, Nat.testBit_and, Nat.testBit_shiftLeft,
    Nat.testBit_shiftRight, h255, Nat.testBit_two_pow_sub_one]
  rcases lt_or_ge i 9 with hi | hi
  · interval_cases i <;> simp
  · have hx : x.testBit i = false := by
      apply Nat.testBit_eq_false_of_lt
      calc x < 512 := h
        _ = 2 ^ 9 := by norm_num
        _ ≤ 2 ^ i := Nat.pow_le_pow_right (by norm_num) hi
    have h1 : x.testBit (1 + (i - 1)) = false := by
      rwa [show 1 + (i - 1) = i by omega]
    simp [hx, h1]

/-- C2, counterexample: the claim fails on the declared full field ranges.
Writing a sub-header whose `inst_start` is 2048 (well inside the declared
32-bit range) and reading it back yields `inst_start = 0`: the 1/2/3-bit
shift packing of `mustache__data_segment_write` loses every bit above
bit 10. -/
theorem C2_counterexample :
    2048 < 2 ^ 32 ∧
    mustache__data_segment_read
      (mustache__data_segment_write ⟨2048, 0, 0, 0⟩ []) 0 ≠
      (⟨2048, 0, 0, 0⟩ : DataSegment) := by decide

/-- C2, amended: encoding a sub-header record with
`mustache__data_segment_write` and decoding the written bytes with
`mustache__data_segment_read` yields the original four field values
provided `inst_start` and `next` are below `2^11` and `filename_len` and
`path_len` are below `2^9` (instead of the declared 32-bit and 16-bit
ranges). -/
theorem C2_theorem (seg : DataSegment) (fn : List Nat)
    (h1 : seg.inst_start < 2 ^ 11) (h2 : seg.next < 2 ^ 11)
    (h3 : seg.filename_len < 2 ^ 9) (h4 : seg.path_len < 2 ^ 9) :
    mustache__data_segment_read (mustache__data_segment_write seg fn) 0 =
      seg := by
  obtain ⟨a, b, c, d⟩ := seg
  have e0 : byteAt (mustache__data_segment_write ⟨a, b, c, d⟩ fn) 0 =
      a &&& 255 := rfl
  have e1 : byteAt (mustache__data_segment_write ⟨a, b, c, d⟩ fn) 1 =
      (a >>> 1) &&& 255 := rfl
  have e2 : byteAt (mustache__data_segment_write ⟨a, b, c, d⟩ fn) 2 =
      (a >>> 2) &&& 255 := rfl
  have e3 : byteAt (mustache__data_segment_write ⟨a, b, c, d⟩ fn) 3 =
      (a >>> 3) &&& 255 := rfl
  have e4 : byteAt (mustache__data_segment_write ⟨a, b, c, d⟩ fn) 4 =
      b &&& 255 := rfl
  have e5 : byteAt (mustache__data_segment_write ⟨a, b, c, d⟩ fn) 5 =
      (b >>> 1) &&& 255 := rfl
  have e6 : byteAt (mustache__data_segment_write ⟨a, b, c, d⟩ fn) 6 =
      (b >>> 2) &&& 255 := rfl
  have e7 : byteAt (mustache__data_segment_write ⟨a, b, c, d⟩ fn) 7 =
      (b >>> 3) &&& 255 := rfl
  have e8 : byteAt (mustache__data_segment_write ⟨a, b, c, d⟩ fn) 8 =
      c &&& 255 := rfl
  have e9 : byteAt (mustache__data_segment_write ⟨a, b, c, d⟩ fn) 9 =
      (c >>> 1) &&& 255 := rfl
  have e10 : byteAt (mustache__data_segment_write ⟨a, b, c, d⟩ fn) 10 =
      d &&& 255 := rfl
  have e11 : byteAt (mustache__data_segment_write ⟨a, b, c, d⟩ fn) 11 =
      (d >>> 1) &&& 255 := rfl
  simp only [mustache__data_segment_read, Nat.zero_add, Nat.add_zero,
    e0, e1, e2, e3, e4, e5, e6, e7, e8, e9, e10, e11]
  simp only [DataSegment.mk.injEq]
  exact ⟨decode_encode_shift3 a h1, decode_encode_shift3 b h2,
    decode_encode_shift1 c h3, decode_encode_shift1 d h4⟩

/-- C2, witness for the amended round trip at a concrete sub-header. -/
theorem C2_witness :
    (1000 < 2 ^ 11 ∧ 1500 < 2 ^ 11 ∧ 300 < 2 ^ 9 ∧ 5 < 2 ^ 9) ∧
    mustache__data_segment_read
      (mustache__data_segment_write ⟨1000, 1500, 300, 5⟩ [97, 98]) 0 =
      (⟨1000, 1500, 300, 5⟩ : DataSegment) :=
  ⟨by decide, C2_theorem ⟨1000, 1500, 300, 5⟩ [97, 98] (by decide) (by decide)
    (by decide) (by decide)⟩

/- *************************************************************************
Claim C1: the sub-header chain walk
************************************************************************* -/

/-- The loader state after loading two templates with `mustache__load_data`:
template "a" (byte 97) with body "X" (88), then template "b" (98) with body
"YZ" (89, 90).  Its data blob holds two sub-headers, at offsets 0 and 15,
and `data_len = 31`. -/
def c1TwoTemplates : LoaderState :=
  (mustache__load_data
    (mustache__load_data
      {instructions := [], blob := [], data_len := 0, frames := [], err := .ok}
      [97] [88]).1
    [98] [89, 90]).1

/-- C1, the walk at the failing input: on the blob holding two loaded
templates, the sub-header chain walk of `mustache__file_is_loaded`
(`data += seg.next`) visits offsets 0 and 15, but terminates with the
walking offset at 46 = 15 + 31, not at the data-blob length 31: the decoded
`next` field is the *absolute* offset of the next sub-header (15, then 31),
while the walk advances *by* it. -/
theorem C1_theorem :
    c1TwoTemplates.data_len = 31 ∧
    (subHeaderWalk c1TwoTemplates.blob c1TwoTemplates.data_len 8 0).1 =
      [0, 15] ∧
    (subHeaderWalk c1TwoTemplates.blob c1TwoTemplates.data_len 8 0).2 = 46 ∧
    (subHeaderWalk c1TwoTemplates.blob c1TwoTemplates.data_len 8 0).2 ≠
      c1TwoTemplates.data_len := by decide

/- *************************************************************************
Claim C4: determinism of rendering
************************************************************************* -/

/-- Two successive renders of the same compiled image with the same (pure,
hence deterministic) callbacks and the same `udata1` / `udata2`.  The image
is immutable: `mustache_build` takes it by value and nothing in the
interpreter writes to it. -/
def mustache_build_twice (img : MImage) (cb : MCallbacks) (u1 u2 fuel : Nat) :
    (Int × MErr × List MEvent) × (Int × MErr × List MEvent) :=
  (mustache_build img cb u1 u2 fuel, mustache_build img cb u1 u2 fuel)

/-- C4: rendering the same image twice with identical callbacks and
identical `udata1` / `udata2` produces identical results — in particular
identical callback traces (same callbacks, same order, same arguments, same
return values). -/
theorem C4_theorem (img : MImage) (cb : MCallbacks) (u1 u2 fuel : Nat) :
    (mustache_build_twice img cb u1 u2 fuel).1 =
      (mustache_build_twice img cb u1 u2 fuel).2 := rfl

/- *************************************************************************
Claim C9: the `callable` flag of `on_section_test`
************************************************************************* -/

/-- C9: whenever the renderer reaches a named section-opening instruction
(`SECTION_START`, `SECTION_START_INV` or `SECTION_GOTO` with
`name_pos ≠ 0`), the next callback event is the `on_section_test`
invocation, and its `callable` flag is 1 exactly when the instruction is a
plain `SECTION_START`; for an inverted section (and for a goto) it is 0. -/
theorem C9_theorem (img : MImage) (cb : MCallbacks) (u1 u2 fuel pos : Nat)
    (fr : MFrame) (rest : List MFrame)
    (hpos : pos < img.instructions.length)
    (htag : (img.instructions.getD pos default).tag = .sectionStart ∨
      (img.instructions.getD pos default).tag = .sectionStartInv ∨
      (img.instructions.getD pos default).tag = .sectionGoto)
    (hname : (img.instructions.getD pos default).data.name_pos ≠ 0)
    (hdepth : ¬ ((fr :: rest).length - 1 + 1 ≥ 96)) :
    ∃ flag res tl,
      (mustache__build_run img cb u1 u2 (fuel + 1) pos (fr :: rest)).2.2 =
        MEvent.evTest fr.sec
          (nameSlice img (img.instructions.getD pos default).data) flag res ::
          tl ∧
      flag = (if (img.instructions.getD pos default).tag = .sectionStart
        then 1 else 0) := by
  rcases htag with h | h | h <;>
    simp only [mustache__build_run, if_pos hpos, h, if_neg hdepth,
      if_pos hname, List.headD_cons, reduceCtorEq, reduceIte] <;>
    split
  · exact ⟨1, _, _, rfl, by simp [h]⟩
  · exact ⟨1, _, _, rfl, by simp [h]⟩
  · exact ⟨0, _, _, rfl, by simp [h]⟩
  · exact ⟨0, _, _, rfl, by simp [h]⟩
  · exact ⟨0, _, _, rfl, by simp [h]⟩
  · exact ⟨0, _, _, rfl, by simp [h]⟩

/-- C9, witness: the inverted-section image compiled from `{{^x}}B{{/x}}`
gives a test event with `callable = 0` at its `SECTION_START_INV`. -/
theorem C9_witness :
    (1 < (4 : Nat) ∧ True) ∧
    ∃ flag res tl,
      (mustache__build_run
        ⟨[⟨.sectionStart, {end_ := 4}⟩,
          ⟨.sectionStartInv, {end_ := 3, name_pos := 16, name_len := 1}⟩,
          ⟨.writeText, {name_pos := 19, name_len := 1}⟩,
          ⟨.sectionEnd, {end_ := 3, name_pos := 16, name_len := 1}⟩],
         [0, 0, 0, 0, 26, 13, 6, 3, 0, 0, 0, 0, 0, 123, 123, 94, 120, 125,
          125, 66, 123, 123, 47, 120, 125, 125]⟩
        ⟨fun _ _ => 0, fun _ _ _ => 0, fun _ _ _ => 0, fun _ _ _ => 0⟩
        7 8 (9 + 1) 1 [default]).2.2 =
        MEvent.evTest (default : MFrame).sec [120] flag res :: tl ∧
      flag = 0 := by
  refine ⟨⟨by decide, trivial⟩, ?_⟩
  obtain ⟨flag, res, tl, h1, h2⟩ := C9_theorem
    ⟨[⟨.sectionStart, {end_ := 4}⟩,
      ⟨.sectionStartInv, {end_ := 3, name_pos := 16, name_len := 1}⟩,
      ⟨.writeText, {name_pos := 19, name_len := 1}⟩,
      ⟨.sectionEnd, {end_ := 3, name_pos := 16, name_len := 1}⟩],
     [0, 0, 0, 0, 26, 13, 6, 3, 0, 0, 0, 0, 0, 123, 123, 94, 120, 125, 125,
      66, 123, 123, 47, 120, 125, 125]⟩
    ⟨fun _ _ => 0, fun _ _ _ => 0, fun _ _ _ => 0, fun _ _ _ => 0⟩
    7 8 9 1 default [] (by decide) (by decide) (by decide) (by decide)
  refine ⟨flag, res, tl, ?_, ?_⟩
  · rw [h1]; rfl
  · rw [h2]; rfl

/- *************************************************************************
Claim C10: `mustache_section_text` error conditions
************************************************************************* -/

/-- C10, counterexample to the original claim: with a valid section
handle but a NULL `p_len`, the function does not return NULL with 0
stored — the shared error path's `*p_len = 0` dereferences the NULL
`p_len` (undefined behaviour), so the call has no defined result. -/
theorem C10_counterexample :
    mustache_section_text ⟨[⟨.sectionStartInv, {}⟩], []⟩ 0 true false =
      none ∧
    mustache_section_text ⟨[⟨.sectionStartInv, {}⟩], []⟩ 0 true false ≠
      some (none, 0) := by
  decide

/-- C10, amended: with a non-NULL `p_len`, a NULL section argument or a
current instruction that is not `SECTION_START` — in particular
`SECTION_START_INV`, hence every callback of an inverted section — makes
`mustache_section_text` return NULL and store 0 into `*p_len`; with a
NULL `p_len` every path reaching the error label dereferences NULL and
the call has no defined result. -/
theorem C10_theorem (img : MImage) (pos : Nat) :
    (mustache_section_text img pos false true = some (none, 0)) ∧
    ((img.instructions.getD pos default).tag ≠ .sectionStart →
      mustache_section_text img pos true true = some (none, 0)) ∧
    ((img.instructions.getD pos default).tag = .sectionStartInv →
      mustache_section_text img pos true true = some (none, 0)) ∧
    (∀ sectionGiven : Bool,
      mustache_section_text img pos sectionGiven false = none) := by
  refine ⟨?_, ?_, ?_, ?_⟩
  · simp [mustache_section_text]
  · intro h
    simp [mustache_section_text, h, -List.getD_eq_getElem?_getD]
  · intro h
    have hne : (img.instructions.getD pos default).tag ≠ .sectionStart := by
      rw [h]; exact fun hc => by cases hc
    simp [mustache_section_text, hne, -List.getD_eq_getElem?_getD]
  · intro sg
    cases sg <;> simp [mustache_section_text]

/-- C10, witness: on an image whose instruction 0 is `SECTION_START_INV`,
`mustache_section_text` with non-NULL arguments returns NULL and length
0, and with a NULL `p_len` has no defined result. -/
theorem C10_witness :
    ((⟨[⟨.sectionStartInv, {}⟩], []⟩ : MImage).instructions.getD 0
        default).tag = .sectionStartInv ∧
    mustache_section_text ⟨[⟨.sectionStartInv, {}⟩], []⟩ 0 true true =
      some (none, 0) ∧
    mustache_section_text ⟨[⟨.sectionStartInv, {}⟩], []⟩ 0 true false =
      none :=
  ⟨by decide,
    (C10_theorem ⟨[⟨.sectionStartInv, {}⟩], []⟩ 0).2.2.1 (by decide),
    (C10_theorem ⟨[⟨.sectionStartInv, {}⟩], []⟩ 0).2.2.2 true⟩

/- *************************************************************************
Claim C5: inverted sections
************************************************************************* -/

/-- The template `{{^x}}B{{/x}}` as bytes. -/
def invTemplate : List Nat :=
  [123, 123, 94, 120, 125, 125, 66, 123, 123, 47, 120, 125, 125]

/-- The image the loader compiles `{{^x}}B{{/x}}` into (see
`C5_theorem`, whose first conjunct checks this). -/
def invImage : MImage :=
  ⟨[⟨.sectionStart, {end_ := 4}⟩,
    ⟨.sectionStartInv,
     {end_ := 3, len := 1, name_pos := 16, name_len := 1, offset := 3}⟩,
    ⟨.writeText, {name_pos := 19, name_len := 1}⟩,
    ⟨.sectionEnd,
     {end_ := 3, len := 1, name_pos := 16, name_len := 1, offset := 3}⟩,
    ⟨.sectionEnd, {}⟩],
   [0, 0, 0, 0, 26, 13, 6, 3, 0, 0, 0, 0, 0] ++ invTemplate⟩

/-- Host callbacks whose section test returns `t` and whose other callbacks
succeed with 0. -/
def cbTest (t : Int) : MCallbacks :=
  ⟨fun _ _ => 0, fun _ _ _ => 0, fun _ _ _ => t, fun _ _ _ => 0⟩

/-- C5: the template `{{^x}}B{{/x}}` compiles to `invImage`, and rendering
it with `on_section_test` returning `t ≠ -1` executes the section body
(the `on_section_start` call and the body text `B`) exactly once when
`t = 0`, and zero times when `t ≠ 0` (the trace then holds the test event
alone). -/
theorem C5_theorem (t : Int) (u1 u2 : Nat) (h1 : t ≠ -1) :
    mustache_load_data [] invTemplate = (some invImage, .ok) ∧
    mustache_build invImage (cbTest t) u1 u2 20 =
      (if t = 0 then
        (0, .ok, [.evTest ⟨u1, u2⟩ [120] 0 0, .evStart ⟨u1, u2⟩ [120] 0 0,
          .evText ⟨u1, u2⟩ [66] 0])
      else (0, .ok, [.evTest ⟨u1, u2⟩ [120] 0 t])) := by
  refine ⟨by decide, ?_⟩
  rcases t with n | n
  · rcases n with _ | n
    · rfl
    · rfl
  · rcases n with _ | n
    · exact absurd rfl h1
    · rfl

/-- C5, witness at `t = 5`: the inverted section body is skipped. -/
theorem C5_witness :
    ((5 : Int) ≠ -1) ∧
    mustache_build invImage (cbTest 5) 7 8 20 =
      (0, .ok, [.evTest ⟨7, 8⟩ [120] 0 5]) :=
  ⟨by decide, by simpa using (C5_theorem 5 7 8 (by decide)).2⟩

/- *************************************************************************
Claim C7: callbacks returning -1 abort with USER_ERROR
************************************************************************* -/

/-- Does an event record the `on_formatting_error` cleanup call? -/
def isFmtEvent : MEvent → Bool
  | .evFormatError _ _ => true
  | _ => false

/-- Did the recorded callback invocation return -1? -/
def isNegOneEvent : MEvent → Bool
  | .evText _ _ r => r = -1
  | .evArg _ _ _ r => r = -1
  | .evTest _ _ _ r => r = -1
  | .evStart _ _ _ r => r = -1
  | .evFormatError _ _ => false

/-- Number of `on_formatting_error` invocations in a trace. -/
def countFmt (l : List MEvent) : Nat := (l.filter isFmtEvent).length

/-- The shape of an aborted render: C return value -1, error out-parameter
`MUSTACHE_ERR_USER_ERROR`, exactly one `on_formatting_error` call, placed at
the very end of the trace. -/
def abortShape (u1 u2 : Nat) (out : Int × MErr × List MEvent) : Prop :=
  out.1 = -1 ∧ out.2.1 = .userError ∧ countFmt out.2.2 = 1 ∧
    out.2.2.getLast? = some (.evFormatError u1 u2)

/-- A render outcome is good when: if any recorded callback returned -1,
the whole render has `abortShape`. -/
def goodOut (u1 u2 : Nat) (out : Int × MErr × List MEvent) : Prop :=
  (∃ ev ∈ out.2.2, isNegOneEvent ev = true) → abortShape u1 u2 out

/-- An outcome with an empty trace is good. -/
theorem goodOut_nilish (u1 u2 : Nat) (r : Int) (e : MErr) :
    goodOut u1 u2 (r, e, []) := by
  rintro ⟨ev, hm, _⟩
  simp at hm

/-- The `TOO_DEEP` abort (which also calls `on_formatting_error`, but whose
trace holds no -1 return) is good. -/
theorem goodOut_tooDeep (u1 u2 : Nat) :
    goodOut u1 u2 (-1, .tooDeep, [.evFormatError u1 u2]) := by
  rintro ⟨ev, hm, hneg⟩
  simp at hm
  subst hm
  simp [isNegOneEvent] at hneg

/-- A user abort right after a callback event is good. -/
theorem goodOut_abort (u1 u2 : Nat) (ev : MEvent)
    (hev : isFmtEvent ev = false) :
    goodOut u1 u2 (-1, .userError, [ev, .evFormatError u1 u2]) := by
  intro _
  refine ⟨rfl, rfl, ?_, rfl⟩
  have hf : isFmtEvent (MEvent.evFormatError u1 u2) = true := rfl
  simp [countFmt, List.filter_cons, hev, hf]

/-- Prepending a successful (non -1, non cleanup) event preserves
goodness. -/
theorem goodOut_cons (u1 u2 : Nat) (ev : MEvent)
    (out : Int × MErr × List MEvent)
    (h1 : isNegOneEvent ev = false) (h2 : isFmtEvent ev = false)
    (hout : goodOut u1 u2 out) :
    goodOut u1 u2 (out.1, out.2.1, ev :: out.2.2) := by
  rintro ⟨e, he, hneg⟩
  rcases List.mem_cons.mp he with rfl | he
  · rw [h1] at hneg; cases hneg
  · obtain ⟨ha, hb, hc, hd⟩ := hout ⟨e, he, hneg⟩
    have hne : out.2.2 ≠ [] := by
      intro hnil; rw [hnil] at he; simp at he
    refine ⟨ha, hb, ?_, ?_⟩
    · simp [countFmt, h2] at hc ⊢
      exact hc
    · rw [← hd]
      cases hout22 : out.2.2 with
      | nil => exact absurd hout22 hne
      | cons b l => simp [List.getLast?]

/-- The section-loop path preserves goodness of its continuation. -/
theorem goodOut_section_loop (img : MImage) (cb : MCallbacks) (u1 u2 : Nat)
    (next : Nat → List MFrame → Int × MErr × List MEvent)
    (fs : List MFrame)
    (hnext : ∀ p fs', goodOut u1 u2 (next p fs')) :
    goodOut u1 u2 (mustache__section_loop img cb u1 u2 next fs) := by
  unfold mustache__section_loop
  dsimp only
  split
  · split
    · split
      · refine goodOut_abort u1 u2 _ ?_
        rfl
      · rename_i hr
        refine goodOut_cons u1 u2 _ _ ?_ ?_ (hnext _ _)
        · simp only [isNegOneEvent]
          exact decide_eq_false hr
        · rfl
    · exact hnext _ _
  · exact hnext _ _

/-- Every outcome of the interpreter loop is good. -/
theorem goodOut_run (img : MImage) (cb : MCallbacks) (u1 u2 : Nat) :
    ∀ fuel pos frames,
      goodOut u1 u2 (mustache__build_run img cb u1 u2 fuel pos frames) := by
  intro fuel
  induction fuel with
  | zero => intro pos frames; exact goodOut_nilish u1 u2 _ _
  | succ fuel ih =>
    intro pos frames
    rw [mustache__build_run]
    by_cases hpos : pos < img.instructions.length
    · rw [if_pos hpos]
      dsimp only
      cases htag : (img.instructions.getD pos default).tag <;>
        simp only [reduceCtorEq, reduceIte]
      -- writeText
      · split
        · refine goodOut_abort u1 u2 _ ?_
          rfl
        · rename_i hr
          refine goodOut_cons u1 u2 _ _ ?_ ?_ (ih _ _)
          · simp only [isNegOneEvent]
            rw [not_not.mp hr]
            decide
          · rfl
      -- writeArg
      · split
        · refine goodOut_abort u1 u2 _ ?_
          rfl
        · rename_i hr
          refine goodOut_cons u1 u2 _ _ ?_ ?_ (ih _ _)
          · simp only [isNegOneEvent]
            rw [not_not.mp hr]
            decide
          · rfl
      -- writeArgUnescaped
      · split
        · refine goodOut_abort u1 u2 _ ?_
          rfl
        · rename_i hr
          refine goodOut_cons u1 u2 _ _ ?_ ?_ (ih _ _)
          · simp only [isNegOneEvent]
            rw [not_not.mp hr]
            decide
          · rfl
      -- sectionStart
      · split
        · exact goodOut_tooDeep u1 u2
        · split
          · split
            · refine goodOut_abort u1 u2 _ ?_
              rfl
            · rename_i hv
              refine goodOut_cons u1 u2 _ _ ?_ ?_
                (goodOut_section_loop img cb u1 u2 _ _ (fun p fs' => ih p fs'))
              · simp only [isNegOneEvent]
                exact decide_eq_false hv
              · rfl
          · exact goodOut_section_loop img cb u1 u2 _ _ (fun p fs' => ih p fs')
      -- sectionStartInv
      · split
        · exact goodOut_tooDeep u1 u2
        · split
          · split
            · refine goodOut_abort u1 u2 _ ?_
              rfl
            · rename_i hv
              refine goodOut_cons u1 u2 _ _ ?_ ?_
                (goodOut_section_loop img cb u1 u2 _ _ (fun p fs' => ih p fs'))
              · simp only [isNegOneEvent]
                exact decide_eq_false hv
              · rfl
          · exact goodOut_section_loop img cb u1 u2 _ _ (fun p fs' => ih p fs')
      -- sectionEnd
      · exact goodOut_section_loop img cb u1 u2 _ _ (fun p fs' => ih p fs')
      -- sectionGoto
      · split
        · exact goodOut_tooDeep u1 u2
        · split
          · split
            · refine goodOut_abort u1 u2 _ ?_
              rfl
            · rename_i hv
              refine goodOut_cons u1 u2 _ _ ?_ ?_
                (goodOut_section_loop img cb u1 u2 _ _ (fun p fs' => ih p fs'))
              · simp only [isNegOneEvent]
                exact decide_eq_false hv
              · rfl
          · exact goodOut_section_loop img cb u1 u2 _ _ (fun p fs' => ih p fs')
    · rw [if_neg hpos]
      exact goodOut_nilish u1 u2 _ _

/-- C7: whenever any host callback returns -1 during a render (the trace
holds an invocation whose result is -1), the render returns failure (-1),
the error out-parameter is `MUSTACHE_ERR_USER_ERROR`, and
`on_formatting_error(udata1, udata2)` is invoked exactly once, as the final
event. -/
theorem C7_theorem (img : MImage) (cb : MCallbacks) (u1 u2 fuel : Nat)
    (habort : ∃ ev ∈ (mustache_build img cb u1 u2 fuel).2.2,
      isNegOneEvent ev = true) :
    (mustache_build img cb u1 u2 fuel).1 = -1 ∧
    (mustache_build img cb u1 u2 fuel).2.1 = .userError ∧
    countFmt (mustache_build img cb u1 u2 fuel).2.2 = 1 ∧
    (mustache_build img cb u1 u2 fuel).2.2.getLast? =
      some (.evFormatError u1 u2) := by
  have h := goodOut_run img cb u1 u2 fuel 0
    [{ sec := ⟨u1, u2⟩, start := 0,
       end_ := (img.instructions.getD 0 default).data.end_,
       index := 0, count := 0, frame := 0 }]
  exact h habort

/-- C7, witness: rendering the inverted-section image with a section test
returning -1 aborts with `USER_ERROR` and one final
`on_formatting_error`. -/
theorem C7_witness :
    (∃ ev ∈ (mustache_build invImage (cbTest (-1)) 7 8 20).2.2,
      isNegOneEvent ev = true) ∧
    ((mustache_build invImage (cbTest (-1)) 7 8 20).1 = -1 ∧
     (mustache_build invImage (cbTest (-1)) 7 8 20).2.1 = .userError ∧
     countFmt (mustache_build invImage (cbTest (-1)) 7 8 20).2.2 = 1 ∧
     (mustache_build invImage (cbTest (-1)) 7 8 20).2.2.getLast? =
       some (.evFormatError 7 8)) :=
  ⟨by decide, C7_theorem invImage (cbTest (-1)) 7 8 20 (by decide)⟩


theorem load_data_root (t : List Nat) (hlen : 13 + t.length < 4294967296) :
    mustache__load_data ⟨[], [], 0, [], .ok⟩ [] t =
      (⟨[⟨.sectionStart, {}⟩],
        mustache__data_segment_write ⟨0, t.length + 13, 0, 0⟩ [] ++ t ++ [0],
        t.length + 13,
        [⟨0, 13, t.length + 13, 0, [123, 123], [125, 125]⟩],
        .ok⟩, true) := by
  unfold mustache__load_data
  have hc : ¬ (0 + t.length > 4294967295) := by omega
  rw [if_neg hc]
  simp only [mustache__data_segment_length, pathLenScan, List.length_nil,
    List.take_nil, List.nil_append]
  have h2 : u32 (((0:Nat) : Int) + (t.length : Int) + (((13 + 0 : Nat)) : Int)) =
      t.length + 13 := by
    rw [show ((0:Nat) : Int) + (t.length : Int) + (((13 + 0 : Nat)) : Int) =
      ((t.length + 13 : Nat) : Int) by push_cast; ring]
    exact u32_of_lt _ (by omega)
  have h3 : u16 (((0:Nat) : Int)) = 0 := by decide
  have h1 : (0 + t.length + (13 + 0)) % 4294967296 = t.length + 13 := by
    rw [Nat.mod_eq_of_lt (by omega)]
    omega
  rw [h2, h3, h1]
  have hcond : t.length + 13 =
      (mustache__data_segment_write ⟨0, t.length + 13, 0, 0⟩ [] ++ t).length := by
    rw [List.length_append, data_segment_write_length]
    simp
    omega
  rw [if_pos hcond]
  simp only [mustache__instruction_push]
  norm_num

end Mustache
namespace Mustache

def tripleTemplate (xs : List Nat) : List Nat :=
  [123, 123, 123] ++ xs ++ [125, 125, 125]

def tripleBlob (xs : List Nat) : List Nat :=
  mustache__data_segment_write ⟨0, xs.length + 19, 0, 0⟩ [] ++
    tripleTemplate xs ++ [0]

theorem tripleTemplate_length (xs : List Nat) :
    (tripleTemplate xs).length = xs.length + 6 := by
  simp [tripleTemplate]

theorem tripleBlob_drop13 (xs : List Nat) :
    (tripleBlob xs).drop 13 = tripleTemplate xs ++ [0] := by
  unfold tripleBlob
  rw [List.append_assoc,
    show (13 : Nat) = (mustache__data_segment_write ⟨0, xs.length + 19, 0, 0⟩
      []).length by rw [data_segment_write_length]; simp,
    List.drop_left]

theorem tripleBlob_drop15 (xs : List Nat) :
    (tripleBlob xs).drop 15 =
      (123 :: xs) ++ ([125, 125, 125] ++ [0]) := by
  have h := tripleBlob_drop13 xs
  have : (tripleBlob xs).drop 15 = ((tripleBlob xs).drop 13).drop 2 := by
    rw [List.drop_drop]
  rw [this, h]
  simp [tripleTemplate]

theorem tripleBlob_drop16 (xs : List Nat) :
    (tripleBlob xs).drop 16 = xs ++ ([125, 125, 125] ++ [0]) := by
  have h := tripleBlob_drop13 xs
  have : (tripleBlob xs).drop 16 = ((tripleBlob xs).drop 13).drop 3 := by
    rw [List.drop_drop]
  rw [this, h]
  simp [tripleTemplate]

theorem tripleBlob_at15 (xs : List Nat) : byteAt (tripleBlob xs) 15 = 123 := by
  have := byteAt_drop (tripleBlob xs) 15 0
  rw [tripleBlob_drop15] at this
  simpa using this.symm

theorem tripleBlob_at16 (x0 : Nat) (xtl : List Nat) :
    byteAt (tripleBlob (x0 :: xtl)) 16 = x0 := by
  have := byteAt_drop (tripleBlob (x0 :: xtl)) 16 0
  rw [tripleBlob_drop16] at this
  simpa using this.symm

theorem tripleBlob_atLast (xs : List Nat) (hne : xs ≠ []) :
    byteAt (tripleBlob xs) (15 + xs.length) = xs.getD (xs.length - 1) 0 := by
  have hx : 15 + xs.length = 16 + (xs.length - 1) := by
    cases xs with
    | nil => exact absurd rfl hne
    | cons a t => simp; omega
  have := byteAt_drop (tripleBlob xs) 16 (xs.length - 1)
  rw [tripleBlob_drop16] at this
  rw [hx, ← this, byteAt_append_left]
  · rfl
  · cases xs with
    | nil => exact absurd rfl hne
    | cons a t => simp

theorem tripleBlob_atClose (xs : List Nat) :
    byteAt (tripleBlob xs) (18 + xs.length) = 125 := by
  have hx : 18 + xs.length = 16 + (xs.length + 2) := by omega
  have := byteAt_drop (tripleBlob xs) 16 (xs.length + 2)
  rw [tripleBlob_drop16] at this
  rw [hx, ← this,
    show xs.length + 2 = xs.length + 2 from rfl]
  rw [show xs.length + 2 = xs.length + 2 from rfl]
  have h2 := byteAt_append_right xs ([125, 125, 125] ++ [0]) 2
  rw [show xs.length + 2 = xs.length + 2 from rfl] at h2
  rw [h2]
  rfl

end Mustache

namespace Mustache

theorem tripleTemplate_all_nonzero (xs : List Nat)
    (hplain : ∀ b ∈ xs, b ≠ 125 ∧ b ≠ 0 ∧ isSpaceByte b = false) :
    ∀ b ∈ tripleTemplate xs, (b ≠ 0 : Bool) = true := by
  intro b hb
  unfold tripleTemplate at hb
  rw [List.mem_append, List.mem_append] at hb
  rcases hb with (hb | hb) | hb
  · simp at hb; subst hb; decide
  · exact decide_eq_true (hplain b hb).2.1
  · simp at hb; subst hb; decide

theorem tripleBlob_find_open (xs : List Nat)
    (hplain : ∀ b ∈ xs, b ≠ 125 ∧ b ≠ 0 ∧ isSpaceByte b = false) :
    cstrFind (tripleBlob xs) 13 [123, 123] = some 13 := by
  have h := cstrFind_spec (tripleBlob xs) 13 [123, 123] 123 [123] []
    (tripleTemplate xs ++ [0]) rfl (by simpa using tripleBlob_drop13 xs)
    (by simp) ?_
  · simpa using h
  · rw [takeWhile_append_all (tripleTemplate xs) [0]
      (tripleTemplate_all_nonzero xs hplain)]
    show ([123, 123]).isPrefixOf (tripleTemplate xs ++ [0].takeWhile (· ≠ 0)) = true
    unfold tripleTemplate
    rfl

theorem tripleBlob_find_close (xs : List Nat)
    (hplain : ∀ b ∈ xs, b ≠ 125 ∧ b ≠ 0 ∧ isSpaceByte b = false) :
    cstrFind (tripleBlob xs) 15 [125, 125] = some (16 + xs.length) := by
  have h := cstrFind_spec (tripleBlob xs) 15 [125, 125] 125 [125] (123 :: xs)
    ([125, 125, 125] ++ [0]) rfl (tripleBlob_drop15 xs) ?_ (by rfl)
  · rw [h]
    congr 1
    simp
    omega
  · intro b hb
    rcases List.mem_cons.mp hb with rfl | hb
    · exact ⟨by decide, by decide⟩
    · exact ⟨(hplain b hb).1, (hplain b hb).2.1⟩

end Mustache

namespace Mustache

set_option maxHeartbeats 1000000 in
theorem triple_iteration (x0 : Nat) (xtl : List Nat)
    (hplain : ∀ b ∈ (x0 :: xtl), b ≠ 125 ∧ b ≠ 0 ∧ isSpaceByte b = false)
    (hL : (x0 :: xtl).length + 19 < 4294967296) :
    mustache__parse_iteration
      ⟨[⟨.sectionStart, {}⟩], tripleBlob (x0 :: xtl),
       (x0 :: xtl).length + 19,
       [⟨0, 13, (x0 :: xtl).length + 19, 0, [123, 123], [125, 125]⟩], .ok⟩
      ⟨0, 13, (x0 :: xtl).length + 19, 0, [123, 123], [125, 125]⟩ [] =
    (⟨[⟨.sectionStart, {}⟩,
       ⟨.writeArgUnescaped,
        {name_pos := 16, name_len := (x0 :: xtl).length % 65536}⟩],
      tripleBlob (x0 :: xtl), (x0 :: xtl).length + 19,
      [⟨0, (x0 :: xtl).length + 19, (x0 :: xtl).length + 19, 0,
        [123, 123], [125, 125]⟩], .ok⟩, true) := by
  unfold mustache__parse_iteration
  dsimp only
  rw [tripleBlob_find_open (x0 :: xtl) hplain]
  dsimp only
  rw [if_neg (by omega : ¬ ((13:Nat) ≥ (x0 :: xtl).length + 19))]
  rw [if_neg (by simp : ¬ ((13:Nat) ≠ 13))]
  rw [show ((13:Nat) + ([123, 123] : List Nat).length) = 15 from rfl]
  rw [tripleBlob_find_close (x0 :: xtl) hplain]
  dsimp only
  rw [if_neg (by omega : ¬ (16 + (x0 :: xtl).length ≥ (x0 :: xtl).length + 19))]
  rw [tripleBlob_at15 (x0 :: xtl)]
  norm_num
  have htf : trimFwd (tripleBlob (x0 :: xtl))
      ((tripleBlob (x0 :: xtl)).length + 1) 16 = 16 := by
    apply trimFwd_stop
    rw [tripleBlob_at16]
    exact (hplain x0 (List.mem_cons_self _ _)).2.2
  have htb : trimBwd (tripleBlob (x0 :: xtl))
      ((tripleBlob (x0 :: xtl)).length + 1) (16 + xtl.length) =
      16 + xtl.length := by
    apply trimBwd_stop
    have h := tripleBlob_atLast (x0 :: xtl) (by simp)
    rw [show 15 + (x0 :: xtl).length = 16 + xtl.length by
      simp only [List.length_cons]; omega] at h
    rw [h]
    have hmem : (x0 :: xtl).getD ((x0 :: xtl).length - 1) 0 ∈ (x0 :: xtl) :=
      getD_mem _ _ (by simp) 0
    exact (hplain _ hmem).2.2
  rw [htf, htb]
  rw [u32_of_lt 16 (by omega)]
  rw [show ((16 + xtl.length : Nat) : Int) + 1 - ((16 : Nat) : Int) =
    ((xtl.length + 1 : Nat) : Int) by push_cast; ring]
  rw [u16_natCast]
  rw [show (16 + ((xtl.length : Int) + 1) + 2) =
    (((19 + xtl.length : Nat)) : Int) by push_cast; ring]
  rw [u32_of_lt _ (by simp at hL; omega)]
  rw [show 19 + xtl.length = 18 + (x0 :: xtl).length by
    simp only [List.length_cons]; omega]
  rw [tripleBlob_atClose (x0 :: xtl)]
  norm_num
  rw [show (18 + ((xtl.length : Int) + 1) + 1) =
    ((xtl.length + 1 + 19 : Nat) : Int) by push_cast; ring]
  rw [u32_of_lt _ (by simp at hL; omega)]
  simp [mustache__instruction_push]

end Mustache

namespace Mustache

theorem tripleBlob_inst_start (xs : List Nat) :
    (mustache__data_segment_read (tripleBlob xs) 0).inst_start = 0 := by
  simp [mustache__data_segment_read, tripleBlob, mustache__data_segment_write,
    byteAt]

theorem writeT_take (m : Nat) (xs : List Nat) :
    (mustache__data_segment_write ⟨0, m, 0, 0⟩ [] ++ tripleTemplate xs ++
      [0]).take (xs.length + 19) =
      mustache__data_segment_write ⟨0, m, 0, 0⟩ [] ++ tripleTemplate xs := by
  rw [show xs.length + 19 =
    (mustache__data_segment_write ⟨0, m, 0, 0⟩ [] ++
      tripleTemplate xs).length by
      rw [List.length_append, data_segment_write_length, tripleTemplate_length]
      simp
      omega]
  exact List.take_left _ _

theorem tripleBlob_take (xs : List Nat) :
    (tripleBlob xs).take (xs.length + 19) =
      mustache__data_segment_write ⟨0, xs.length + 19, 0, 0⟩ [] ++
        tripleTemplate xs :=
  writeT_take (xs.length + 19) xs


/-- Assembly of `mustache_load` from the value of the initial
`mustache__load_data` call and of the parsing loop. -/
theorem mustache_load_data_eq (filename tdata : List Nat)
    (s1 s2 : LoaderState)
    (h1 : mustache__load_data
      ⟨[], [], 0, [], .ok⟩ filename tdata = (s1, true))
    (h2 : mustache__parse_loop (s1.data_len + 200) s1 = (s2, true)) :
    mustache_load_data filename tdata =
      (some ⟨s2.instructions, s2.blob.take s2.data_len⟩, .ok) := by
  unfold mustache_load_data
  dsimp only
  rw [h1]
  dsimp only
  rw [h2]

/-- Full compilation of the template `{{{x}}}` for a plain one-or-more-byte
name `x`: a pseudo `SECTION_START` patched to end 2, one
`WRITE_ARG_UNESCAPED` whose name starts at blob offset 16, and the final
`SECTION_END`. -/
theorem load_triple (x0 : Nat) (xtl : List Nat)
    (hplain : ∀ b ∈ (x0 :: xtl), b ≠ 125 ∧ b ≠ 0 ∧ isSpaceByte b = false)
    (hL : (x0 :: xtl).length + 19 < 4294967296) :
    mustache_load_data [] (tripleTemplate (x0 :: xtl)) =
      (some ⟨[⟨.sectionStart, {end_ := 2}⟩,
        ⟨.writeArgUnescaped,
         {name_pos := 16, name_len := (x0 :: xtl).length % 65536}⟩,
        ⟨.sectionEnd, {}⟩],
        mustache__data_segment_write ⟨0, (x0 :: xtl).length + 19, 0, 0⟩ [] ++
          tripleTemplate (x0 :: xtl)⟩, .ok) := by
  have h1 : mustache__load_data ⟨[], [], 0, [], .ok⟩ []
      (tripleTemplate (x0 :: xtl)) =
      ((⟨[⟨.sectionStart, {}⟩], tripleBlob (x0 :: xtl),
        (x0 :: xtl).length + 19,
        [⟨0, 13, (x0 :: xtl).length + 19, 0, [123, 123], [125, 125]⟩],
        .ok⟩ : LoaderState), true) := by
    rw [load_data_root _ (by rw [tripleTemplate_length]; omega)]
    rw [tripleTemplate_length]
    rw [show (x0 :: xtl).length + 6 + 13 = (x0 :: xtl).length + 19 from by
      omega]
    rfl
  have h2 : mustache__parse_loop ((x0 :: xtl).length + 19 + 200)
      (⟨[⟨.sectionStart, {}⟩], tripleBlob (x0 :: xtl),
        (x0 :: xtl).length + 19,
        [⟨0, 13, (x0 :: xtl).length + 19, 0, [123, 123], [125, 125]⟩],
        .ok⟩ : LoaderState) =
      ((⟨[⟨.sectionStart, {end_ := 2}⟩,
         ⟨.writeArgUnescaped,
          {name_pos := 16, name_len := (x0 :: xtl).length % 65536}⟩,
         ⟨.sectionEnd, {}⟩],
        tripleBlob (x0 :: xtl), (x0 :: xtl).length + 19, [], .ok⟩ :
        LoaderState), true) := by
    rw [show (x0 :: xtl).length + 19 + 200 =
      ((x0 :: xtl).length + 216) + 1 + 1 + 1 from by omega]
    rw [parse_loop_iter _ _ _ _ _ rfl (by dsimp only; omega)
      (triple_iteration x0 xtl hplain hL)]
    rw [parse_loop_pop _ _ _ _ rfl (by dsimp only; omega) rfl]
    simp only []
    rw [tripleBlob_inst_start]
    norm_num [patchInstrEnd, mustache__instruction_push]
    exact parse_loop_done _ _ rfl
  rw [mustache_load_data_eq [] (tripleTemplate (x0 :: xtl)) _ _ h1 h2]
  dsimp only
  rw [tripleBlob_take]

end Mustache

namespace Mustache

/-- The template `{{&x}}`. -/
def ampTemplate (xs : List Nat) : List Nat :=
  [123, 123, 38] ++ xs ++ [125, 125]

/-- The data blob after `mustache__load_data` on `{{&x}}`. -/
def ampBlob (xs : List Nat) : List Nat :=
  mustache__data_segment_write ⟨0, xs.length + 18, 0, 0⟩ [] ++
    ampTemplate xs ++ [0]

theorem ampTemplate_length (xs : List Nat) :
    (ampTemplate xs).length = xs.length + 5 := by
  simp [ampTemplate]

theorem ampBlob_drop13 (xs : List Nat) :
    (ampBlob xs).drop 13 = ampTemplate xs ++ [0] := by
  unfold ampBlob
  rw [List.append_assoc,
    show (13 : Nat) = (mustache__data_segment_write ⟨0, xs.length + 18, 0, 0⟩
      []).length by rw [data_segment_write_length]; simp,
    List.drop_left]

theorem ampBlob_drop15 (xs : List Nat) :
    (ampBlob xs).drop 15 = (38 :: xs) ++ ([125, 125] ++ [0]) := by
  have h := ampBlob_drop13 xs
  have : (ampBlob xs).drop 15 = ((ampBlob xs).drop 13).drop 2 := by
    rw [List.drop_drop]
  rw [this, h]
  simp [ampTemplate]

theorem ampBlob_drop16 (xs : List Nat) :
    (ampBlob xs).drop 16 = xs ++ ([125, 125] ++ [0]) := by
  have h := ampBlob_drop13 xs
  have : (ampBlob xs).drop 16 = ((ampBlob xs).drop 13).drop 3 := by
    rw [List.drop_drop]
  rw [this, h]
  simp [ampTemplate]

theorem ampBlob_at15 (xs : List Nat) : byteAt (ampBlob xs) 15 = 38 := by
  have := byteAt_drop (ampBlob xs) 15 0
  rw [ampBlob_drop15] at this
  simpa using this.symm

theorem ampBlob_at16 (x0 : Nat) (xtl : List Nat) :
    byteAt (ampBlob (x0 :: xtl)) 16 = x0 := by
  have := byteAt_drop (ampBlob (x0 :: xtl)) 16 0
  rw [ampBlob_drop16] at this
  simpa using this.symm

theorem ampBlob_atLast (xs : List Nat) (hne : xs ≠ []) :
    byteAt (ampBlob xs) (15 + xs.length) = xs.getD (xs.length - 1) 0 := by
  have hx : 15 + xs.length = 16 + (xs.length - 1) := by
    cases xs with
    | nil => exact absurd rfl hne
    | cons a t => simp; omega
  have := byteAt_drop (ampBlob xs) 16 (xs.length - 1)
  rw [ampBlob_drop16] at this
  rw [hx, ← this, byteAt_append_left]
  · rfl
  · cases xs with
    | nil => exact absurd rfl hne
    | cons a t => simp

theorem ampTemplate_all_nonzero (xs : List Nat)
    (hplain : ∀ b ∈ xs, b ≠ 125 ∧ b ≠ 0 ∧ isSpaceByte b = false) :
    ∀ b ∈ ampTemplate xs, (b ≠ 0 : Bool) = true := by
  intro b hb
  unfold ampTemplate at hb
  rw [List.mem_append, List.mem_append] at hb
  rcases hb with (hb | hb) | hb
  · simp at hb
    rcases hb with rfl | rfl <;> decide
  · exact decide_eq_true (hplain b hb).2.1
  · simp at hb; subst hb; decide

theorem ampBlob_find_open (xs : List Nat)
    (hplain : ∀ b ∈ xs, b ≠ 125 ∧ b ≠ 0 ∧ isSpaceByte b = false) :
    cstrFind (ampBlob xs) 13 [123, 123] = some 13 := by
  have h := cstrFind_spec (ampBlob xs) 13 [123, 123] 123 [123] []
    (ampTemplate xs ++ [0]) rfl (by simpa using ampBlob_drop13 xs)
    (by simp) ?_
  · simpa using h
  · rw [takeWhile_append_all (ampTemplate xs) [0]
      (ampTemplate_all_nonzero xs hplain)]
    show ([123, 123]).isPrefixOf (ampTemplate xs ++ [0].takeWhile (· ≠ 0)) =
      true
    unfold ampTemplate
    rfl

theorem ampBlob_find_close (xs : List Nat)
    (hplain : ∀ b ∈ xs, b ≠ 125 ∧ b ≠ 0 ∧ isSpaceByte b = false) :
    cstrFind (ampBlob xs) 15 [125, 125] = some (16 + xs.length) := by
  have h := cstrFind_spec (ampBlob xs) 15 [125, 125] 125 [125] (38 :: xs)
    ([125, 125] ++ [0]) rfl (ampBlob_drop15 xs) ?_ (by rfl)
  · rw [h]
    congr 1
    simp
    omega
  · intro b hb
    rcases List.mem_cons.mp hb with rfl | hb
    · exact ⟨by decide, by decide⟩
    · exact ⟨(hplain b hb).1, (hplain b hb).2.1⟩

end Mustache

namespace Mustache

set_option maxHeartbeats 1000000 in
theorem amp_iteration (x0 : Nat) (xtl : List Nat)
    (hplain : ∀ b ∈ (x0 :: xtl), b ≠ 125 ∧ b ≠ 0 ∧ isSpaceByte b = false)
    (hL : (x0 :: xtl).length + 18 < 4294967296) :
    mustache__parse_iteration
      ⟨[⟨.sectionStart, {}⟩], ampBlob (x0 :: xtl),
       (x0 :: xtl).length + 18,
       [⟨0, 13, (x0 :: xtl).length + 18, 0, [123, 123], [125, 125]⟩], .ok⟩
      ⟨0, 13, (x0 :: xtl).length + 18, 0, [123, 123], [125, 125]⟩ [] =
    (⟨[⟨.sectionStart, {}⟩,
       ⟨.writeArgUnescaped,
        {name_pos := 16, name_len := (x0 :: xtl).length % 65536}⟩],
      ampBlob (x0 :: xtl), (x0 :: xtl).length + 18,
      [⟨0, (x0 :: xtl).length + 18, (x0 :: xtl).length + 18, 0,
        [123, 123], [125, 125]⟩], .ok⟩, true) := by
  unfold mustache__parse_iteration
  dsimp only
  rw [ampBlob_find_open (x0 :: xtl) hplain]
  dsimp only
  rw [if_neg (by omega : ¬ ((13:Nat) ≥ (x0 :: xtl).length + 18))]
  rw [if_neg (by simp : ¬ ((13:Nat) ≠ 13))]
  rw [show ((13:Nat) + ([123, 123] : List Nat).length) = 15 from rfl]
  rw [ampBlob_find_close (x0 :: xtl) hplain]
  dsimp only
  rw [if_neg (by omega : ¬ (16 + (x0 :: xtl).length ≥ (x0 :: xtl).length + 18))]
  rw [ampBlob_at15 (x0 :: xtl)]
  norm_num
  have htf : trimFwd (ampBlob (x0 :: xtl))
      ((ampBlob (x0 :: xtl)).length + 1) 16 = 16 := by
    apply trimFwd_stop
    rw [ampBlob_at16]
    exact (hplain x0 (List.mem_cons_self _ _)).2.2
  have htb : trimBwd (ampBlob (x0 :: xtl))
      ((ampBlob (x0 :: xtl)).length + 1) (16 + xtl.length) =
      16 + xtl.length := by
    apply trimBwd_stop
    have h := ampBlob_atLast (x0 :: xtl) (by simp)
    rw [show 15 + (x0 :: xtl).length = 16 + xtl.length by
      simp only [List.length_cons]; omega] at h
    rw [h]
    have hmem : (x0 :: xtl).getD ((x0 :: xtl).length - 1) 0 ∈ (x0 :: xtl) :=
      getD_mem _ _ (by simp) 0
    exact (hplain _ hmem).2.2
  rw [htf, htb]
  rw [u32_of_lt 16 (by omega)]
  rw [show ((16 + xtl.length : Nat) : Int) + 1 - ((16 : Nat) : Int) =
    ((xtl.length + 1 : Nat) : Int) by push_cast; ring]
  rw [u16_natCast]
  rw [show (16 + ((xtl.length : Int) + 1) + 2) =
    (((19 + xtl.length : Nat)) : Int) by push_cast; ring]
  rw [u32_of_lt _ (by simp at hL; omega)]
  simp [mustache__instruction_push]
  omega

end Mustache

namespace Mustache

theorem ampBlob_inst_start (xs : List Nat) :
    (mustache__data_segment_read (ampBlob xs) 0).inst_start = 0 := by
  simp [mustache__data_segment_read, ampBlob, mustache__data_segment_write,
    byteAt]

theorem ampWriteT_take (m : Nat) (xs : List Nat) :
    (mustache__data_segment_write ⟨0, m, 0, 0⟩ [] ++ ampTemplate xs ++
      [0]).take (xs.length + 18) =
      mustache__data_segment_write ⟨0, m, 0, 0⟩ [] ++ ampTemplate xs := by
  rw [show xs.length + 18 =
    (mustache__data_segment_write ⟨0, m, 0, 0⟩ [] ++
      ampTemplate xs).length by
      rw [List.length_append, data_segment_write_length, ampTemplate_length]
      simp
      omega]
  exact List.take_left _ _

theorem ampBlob_take (xs : List Nat) :
    (ampBlob xs).take (xs.length + 18) =
      mustache__data_segment_write ⟨0, xs.length + 18, 0, 0⟩ [] ++
        ampTemplate xs :=
  ampWriteT_take (xs.length + 18) xs

/-- Full compilation of the template `{{&x}}` for a plain one-or-more-byte
name `x`: exactly the same instructions as `{{{x}}}` (a pseudo
`SECTION_START` patched to end 2, one `WRITE_ARG_UNESCAPED` whose name starts
at blob offset 16, the final `SECTION_END`). -/
theorem load_amp (x0 : Nat) (xtl : List Nat)
    (hplain : ∀ b ∈ (x0 :: xtl), b ≠ 125 ∧ b ≠ 0 ∧ isSpaceByte b = false)
    (hL : (x0 :: xtl).length + 18 < 4294967296) :
    mustache_load_data [] (ampTemplate (x0 :: xtl)) =
      (some ⟨[⟨.sectionStart, {end_ := 2}⟩,
        ⟨.writeArgUnescaped,
         {name_pos := 16, name_len := (x0 :: xtl).length % 65536}⟩,
        ⟨.sectionEnd, {}⟩],
        mustache__data_segment_write ⟨0, (x0 :: xtl).length + 18, 0, 0⟩ [] ++
          ampTemplate (x0 :: xtl)⟩, .ok) := by
  have h1 : mustache__load_data ⟨[], [], 0, [], .ok⟩ []
      (ampTemplate (x0 :: xtl)) =
      ((⟨[⟨.sectionStart, {}⟩], ampBlob (x0 :: xtl),
        (x0 :: xtl).length + 18,
        [⟨0, 13, (x0 :: xtl).length + 18, 0, [123, 123], [125, 125]⟩],
        .ok⟩ : LoaderState), true) := by
    rw [load_data_root _ (by rw [ampTemplate_length]; omega)]
    rw [ampTemplate_length]
    rw [show (x0 :: xtl).length + 5 + 13 = (x0 :: xtl).length + 18 from by
      omega]
    rfl
  have h2 : mustache__parse_loop ((x0 :: xtl).length + 18 + 200)
      (⟨[⟨.sectionStart, {}⟩], ampBlob (x0 :: xtl),
        (x0 :: xtl).length + 18,
        [⟨0, 13, (x0 :: xtl).length + 18, 0, [123, 123], [125, 125]⟩],
        .ok⟩ : LoaderState) =
      ((⟨[⟨.sectionStart, {end_ := 2}⟩,
         ⟨.writeArgUnescaped,
          {name_pos := 16, name_len := (x0 :: xtl).length % 65536}⟩,
         ⟨.sectionEnd, {}⟩],
        ampBlob (x0 :: xtl), (x0 :: xtl).length + 18, [], .ok⟩ :
        LoaderState), true) := by
    rw [show (x0 :: xtl).length + 18 + 200 =
      ((x0 :: xtl).length + 215) + 1 + 1 + 1 from by omega]
    rw [parse_loop_iter _ _ _ _ _ rfl (by dsimp only; omega)
      (amp_iteration x0 xtl hplain hL)]
    rw [parse_loop_pop _ _ _ _ rfl (by dsimp only; omega) rfl]
    simp only []
    rw [ampBlob_inst_start]
    norm_num [patchInstrEnd, mustache__instruction_push]
    exact parse_loop_done _ _ rfl
  rw [mustache_load_data_eq [] (ampTemplate (x0 :: xtl)) _ _ h1 h2]
  dsimp only
  rw [ampBlob_take]

end Mustache

namespace Mustache

/-- The renderer only looks at the image through its instruction list and
the name slices the instructions denote: two images agreeing on those are
indistinguishable, callback trace included. -/
theorem build_run_congr (img1 img2 : MImage) (cb : MCallbacks) (u1 u2 : Nat)
    (hins : img1.instructions = img2.instructions)
    (hslice : ∀ i,
      nameSlice img1 ((img2.instructions.getD i default)).data =
        nameSlice img2 ((img2.instructions.getD i default)).data) :
    ∀ fuel pos frames,
      mustache__build_run img1 cb u1 u2 fuel pos frames =
        mustache__build_run img2 cb u1 u2 fuel pos frames := by
  intro fuel
  induction fuel with
  | zero => intro pos frames; rfl
  | succ n ih =>
    intro pos frames
    unfold mustache__build_run mustache__section_loop
    simp only [hins, hslice, ih]

/-- `build_run_congr` lifted to `mustache_build` (the root frame reads
`instructions[0].data.end`, equal on both sides). -/
theorem mustache_build_congr (img1 img2 : MImage) (cb : MCallbacks)
    (u1 u2 fuel : Nat)
    (hins : img1.instructions = img2.instructions)
    (hslice : ∀ i,
      nameSlice img1 ((img2.instructions.getD i default)).data =
        nameSlice img2 ((img2.instructions.getD i default)).data) :
    mustache_build img1 cb u1 u2 fuel = mustache_build img2 cb u1 u2 fuel := by
  unfold mustache_build
  simp only [hins]
  exact build_run_congr img1 img2 cb u1 u2 hins hslice fuel 0 _

theorem take_append_left (xs ys : List Nat) (m : Nat) (hm : m ≤ xs.length) :
    (xs ++ ys).take m = xs.take m := by
  rw [List.take_append_eq_append_take, Nat.sub_eq_zero_of_le hm]
  simp

theorem tripleData_drop16 (m : Nat) (xs : List Nat) :
    (mustache__data_segment_write ⟨0, m, 0, 0⟩ [] ++
      tripleTemplate xs).drop 16 = xs ++ [125, 125, 125] := by
  unfold tripleTemplate
  rw [show (mustache__data_segment_write ⟨0, m, 0, 0⟩ [] ++
      ([123, 123, 123] ++ xs ++ [125, 125, 125])) =
      (mustache__data_segment_write ⟨0, m, 0, 0⟩ [] ++ [123, 123, 123]) ++
      (xs ++ [125, 125, 125]) by simp [List.append_assoc]]
  rw [show (16 : Nat) = (mustache__data_segment_write ⟨0, m, 0, 0⟩ [] ++
      [123, 123, 123]).length by
    rw [List.length_append, data_segment_write_length]; rfl]
  exact List.drop_left _ _

theorem ampData_drop16 (m : Nat) (xs : List Nat) :
    (mustache__data_segment_write ⟨0, m, 0, 0⟩ [] ++
      ampTemplate xs).drop 16 = xs ++ [125, 125] := by
  unfold ampTemplate
  rw [show (mustache__data_segment_write ⟨0, m, 0, 0⟩ [] ++
      ([123, 123, 38] ++ xs ++ [125, 125])) =
      (mustache__data_segment_write ⟨0, m, 0, 0⟩ [] ++ [123, 123, 38]) ++
      (xs ++ [125, 125]) by simp [List.append_assoc]]
  rw [show (16 : Nat) = (mustache__data_segment_write ⟨0, m, 0, 0⟩ [] ++
      [123, 123, 38]).length by
    rw [List.length_append, data_segment_write_length]; rfl]
  exact List.drop_left _ _

theorem triple_slice (ins : List MInstr) (xs : List Nat) (m : Nat) :
    nameSlice ⟨ins, mustache__data_segment_write ⟨0, m, 0, 0⟩ [] ++
      tripleTemplate xs⟩ {name_pos := 16, name_len := xs.length % 65536} =
      xs.take (xs.length % 65536) := by
  unfold nameSlice
  dsimp only
  rw [tripleData_drop16 m xs]
  exact take_append_left _ _ _ (Nat.mod_le _ _)

theorem amp_slice (ins : List MInstr) (xs : List Nat) (m : Nat) :
    nameSlice ⟨ins, mustache__data_segment_write ⟨0, m, 0, 0⟩ [] ++
      ampTemplate xs⟩ {name_pos := 16, name_len := xs.length % 65536} =
      xs.take (xs.length % 65536) := by
  unfold nameSlice
  dsimp only
  rw [ampData_drop16 m xs]
  exact take_append_left _ _ _ (Nat.mod_le _ _)

/-- All-zero callbacks: accept everything, every section empty. -/
def cb0 : MCallbacks :=
  ⟨fun _ _ => 0, fun _ _ _ => 0, fun _ _ _ => 0, fun _ _ _ => 0⟩

end Mustache

namespace Mustache

/-- Claim C6: for every plain non-empty name `x` (bytes that are not `}`,
not NUL and not whitespace, total length below the blob limit), the
templates `{{{x}}}` and `{{&x}}` compile to the same instruction list,
whose working instruction is `WRITE_ARG_UNESCAPED` with the same (trimmed)
name slice; every rendering with any callbacks produces identical callback
sequences, and rendering with accepting callbacks invokes `on_arg` exactly
once with `escape_flag = 0`. -/
theorem C6_theorem (x0 : Nat) (xtl : List Nat)
    (hplain : ∀ b ∈ (x0 :: xtl), b ≠ 125 ∧ b ≠ 0 ∧ isSpaceByte b = false)
    (hL : (x0 :: xtl).length + 19 < 4294967296) :
    ∃ img1 img2 : MImage,
      mustache_load_data [] (tripleTemplate (x0 :: xtl)) =
        (some img1, .ok) ∧
      mustache_load_data [] (ampTemplate (x0 :: xtl)) = (some img2, .ok) ∧
      img1.instructions = img2.instructions ∧
      (img1.instructions.getD 1 default).tag = .writeArgUnescaped ∧
      nameSlice img1 (img1.instructions.getD 1 default).data =
        (x0 :: xtl).take ((x0 :: xtl).length % 65536) ∧
      nameSlice img2 (img2.instructions.getD 1 default).data =
        (x0 :: xtl).take ((x0 :: xtl).length % 65536) ∧
      (∀ cb u1 u2 fuel,
        mustache_build img1 cb u1 u2 fuel =
          mustache_build img2 cb u1 u2 fuel) ∧
      (∀ u1 u2,
        mustache_build img1 cb0 u1 u2 10 =
          (0, .ok,
           [.evArg ⟨u1, u2⟩ ((x0 :: xtl).take ((x0 :: xtl).length % 65536))
              0 0]) ∧
        mustache_build img2 cb0 u1 u2 10 =
          (0, .ok,
           [.evArg ⟨u1, u2⟩ ((x0 :: xtl).take ((x0 :: xtl).length % 65536))
              0 0])) := by
  have hs1 : nameSlice
      (⟨[⟨.sectionStart, {end_ := 2}⟩,
         ⟨.writeArgUnescaped,
          {name_pos := 16, name_len := (x0 :: xtl).length % 65536}⟩,
         ⟨.sectionEnd, {}⟩],
        mustache__data_segment_write ⟨0, (x0 :: xtl).length + 19, 0, 0⟩ [] ++
          tripleTemplate (x0 :: xtl)⟩ : MImage)
      {name_pos := 16, name_len := (x0 :: xtl).length % 65536} =
      (x0 :: xtl).take ((x0 :: xtl).length % 65536) :=
    triple_slice _ (x0 :: xtl) _
  have hs2 : nameSlice
      (⟨[⟨.sectionStart, {end_ := 2}⟩,
         ⟨.writeArgUnescaped,
          {name_pos := 16, name_len := (x0 :: xtl).length % 65536}⟩,
         ⟨.sectionEnd, {}⟩],
        mustache__data_segment_write ⟨0, (x0 :: xtl).length + 18, 0, 0⟩ [] ++
          ampTemplate (x0 :: xtl)⟩ : MImage)
      {name_pos := 16, name_len := (x0 :: xtl).length % 65536} =
      (x0 :: xtl).take ((x0 :: xtl).length % 65536) :=
    amp_slice _ (x0 :: xtl) _
  refine ⟨_, _, load_triple x0 xtl hplain hL,
    load_amp x0 xtl hplain (by omega), rfl, rfl, hs1, hs2, ?_, ?_⟩
  · intro cb u1 u2 fuel
    refine mustache_build_congr _ _ cb u1 u2 fuel rfl ?_
    intro i
    rcases i with _ | _ | _ | n
    · rfl
    · exact hs1.trans hs2.symm
    · rfl
    · rfl
  · intro u1 u2
    constructor
    · rw [← hs1]; rfl
    · rw [← hs2]; rfl

end Mustache

namespace Mustache

theorem C6_witness :
    ((∀ b ∈ (120 :: ([] : List Nat)), b ≠ 125 ∧ b ≠ 0 ∧
        isSpaceByte b = false) ∧
      (120 :: ([] : List Nat)).length + 19 < 4294967296) ∧
    (∃ img1 img2 : MImage,
      mustache_load_data [] (tripleTemplate (120 :: [])) =
        (some img1, .ok) ∧
      mustache_load_data [] (ampTemplate (120 :: [])) = (some img2, .ok) ∧
      img1.instructions = img2.instructions ∧
      (img1.instructions.getD 1 default).tag = .writeArgUnescaped ∧
      nameSlice img1 (img1.instructions.getD 1 default).data =
        (120 :: []).take ((120 :: ([] : List Nat)).length % 65536) ∧
      nameSlice img2 (img2.instructions.getD 1 default).data =
        (120 :: []).take ((120 :: ([] : List Nat)).length % 65536) ∧
      (∀ cb u1 u2 fuel,
        mustache_build img1 cb u1 u2 fuel =
          mustache_build img2 cb u1 u2 fuel) ∧
      (∀ u1 u2,
        mustache_build img1 cb0 u1 u2 10 =
          (0, .ok,
           [.evArg ⟨u1, u2⟩
              ((120 :: []).take ((120 :: ([] : List Nat)).length % 65536))
              0 0]) ∧
        mustache_build img2 cb0 u1 u2 10 =
          (0, .ok,
           [.evArg ⟨u1, u2⟩
              ((120 :: []).take ((120 :: ([] : List Nat)).length % 65536))
              0 0]))) :=
  ⟨⟨by decide, by decide⟩, C6_theorem 120 [] (by decide) (by decide)⟩

end Mustache

namespace Mustache

/-- A failed instruction push reports `MUSTACHE_ERR_TOO_DEEP`. -/
theorem push_false_err (s : LoaderState) (i : MInstr) (s' : LoaderState)
    (h : mustache__instruction_push s i = (s', false)) : s'.err = .tooDeep := by
  unfold mustache__instruction_push at h
  split at h
  · simp only [Prod.mk.injEq] at h
    rw [← h.1]
  · simp at h

/-- `mustache__load_file` never fails with `NAME_TOO_LONG`. -/
theorem load_file_false_err (s : LoaderState) (np nl : Nat)
    (s' : LoaderState) (h : mustache__load_file s np nl = (s', false)) :
    s'.err ≠ .nameTooLong := by
  unfold mustache__load_file at h
  dsimp only at h
  repeat' split at h
  all_goals first
    | (have hp := push_false_err _ _ _ h
       rw [hp]
       simp)
    | (simp only [Prod.mk.injEq] at h
       rw [← h.1]
       simp)

/-- Projection form of `push_false_err`. -/
theorem push_snd_false_err (s : LoaderState) (i : MInstr)
    (h : (mustache__instruction_push s i).2 = false) :
    (mustache__instruction_push s i).1.err = .tooDeep := by
  unfold mustache__instruction_push at h ⊢
  split at h
  · rename_i hc
    rw [if_pos hc]
  · simp at h

/-- Projection form of `load_file_false_err`. -/
theorem load_file_snd_false_err (s : LoaderState) (np nl : Nat)
    (h : (mustache__load_file s np nl).2 = false) :
    (mustache__load_file s np nl).1.err ≠ .nameTooLong := by
  have heq : mustache__load_file s np nl =
      ((mustache__load_file s np nl).1, false) := by
    rw [← h]
  exact load_file_false_err _ _ _ _ heq

/-- A failing parse iteration never reports `NAME_TOO_LONG`: the broken
guard (which tests the name's position, not its length) stores the error
without aborting, and every aborting path stores another error code. -/
theorem parse_iteration_false_err (s : LoaderState) (f : LoaderFrame)
    (rest : List LoaderFrame) (s' : LoaderState)
    (h : mustache__parse_iteration s f rest = (s', false)) :
    s'.err ≠ .nameTooLong := by
  unfold mustache__parse_iteration at h
  dsimp only at h
  rcases hb : cstrFind s.blob f.data_pos f.del_start with _ | orgBeg
  · rw [hb] at h
    dsimp only at h
    simp at h
  · rw [hb] at h
    dsimp only at h
    by_cases h1 : orgBeg ≥ f.data_end
    · rw [if_pos h1] at h
      simp at h
    · rw [if_neg h1] at h
      set s1 : LoaderState := (if orgBeg ≠ f.data_pos
        then (mustache__instruction_push s
          ⟨.writeText,
           {name_pos := f.data_pos,
            name_len := u16 ((orgBeg : Int) - (f.data_pos : Int))}⟩).1
        else s) with hs1
      rcases he : cstrFind s1.blob (orgBeg + f.del_start.length) f.del_end
        with _ | endD
      · rw [he] at h
        dsimp only at h
        simp only [Prod.mk.injEq] at h
        rw [← h.1]
        simp
      · rw [he] at h
        dsimp only at h
        by_cases h2 : endD ≥ f.data_end
        · rw [if_pos h2] at h
          simp only [Prod.mk.injEq] at h
          rw [← h.1]
          simp
        · rw [if_neg h2] at h
          repeat' split at h
          all_goals
            first
            | (rename_i hok
               rw [Bool.not_eq_true] at hok
               simp only [Prod.mk.injEq] at h
               have hp := push_snd_false_err _ _ hok
               rw [← h.1, hp]
               simp)
            | (simp only [Prod.mk.injEq] at h
               rw [← h.1]
               exact load_file_snd_false_err _ _ _ h.2)
            | (simp at h
               done)
            | (simp only [Prod.mk.injEq] at h
               rw [← h.1]
               simp)

end Mustache

namespace Mustache

/-- The outer parsing loop never fails with `NAME_TOO_LONG`. -/
theorem parse_loop_false_err : ∀ (fuel : Nat) (s s' : LoaderState),
    mustache__parse_loop fuel s = (s', false) → s'.err ≠ .nameTooLong := by
  intro fuel
  induction fuel with
  | zero =>
    intro s s' h
    unfold mustache__parse_loop at h
    simp only [Prod.mk.injEq] at h
    rw [← h.1]
    simp
  | succ n ih =>
    intro s s' h
    unfold mustache__parse_loop at h
    split at h
    · simp at h
    · split at h
      · split at h
        · exact ih _ _ h
        · rename_i heq
          simp only [Prod.mk.injEq] at h
          rw [← h.1]
          exact parse_iteration_false_err _ _ _ _ heq
      · split at h
        · simp only [Prod.mk.injEq] at h
          rw [← h.1]
          simp
        · exact ih _ _ h

/-- A failing `mustache__load_data` reports `MUSTACHE_ERR_TOO_DEEP`. -/
theorem load_data_false_err (s0 : LoaderState) (n t : List Nat)
    (s : LoaderState) (h : mustache__load_data s0 n t = (s, false)) :
    s.err = .tooDeep := by
  unfold mustache__load_data at h
  dsimp only at h
  repeat' split at h
  all_goals first
    | (simp at h
       done)
    | (simp only [Prod.mk.injEq] at h
       rw [← h.1])

/-- Claim C8: the compiler never returns `MUSTACHE_ERR_NAME_TOO_LONG` (the
guard tests the name's blob position against `UINT16_MAX`, only for section
openers, does not abort, and the stored code is later overwritten), and in
particular a single tag name of 2^16 bytes compiles successfully, its
`name_len` silently truncated to 0 = 65536 mod 2^16. -/
theorem C8_theorem :
    (∀ filename tdata : List Nat,
      (mustache_load_data filename tdata).2 ≠ .nameTooLong) ∧
    (97 :: List.replicate 65535 97).length = 65536 ∧
    (∃ img : MImage,
      mustache_load_data []
        (tripleTemplate (97 :: List.replicate 65535 97)) = (some img, .ok) ∧
      (img.instructions.getD 1 default).tag = .writeArgUnescaped ∧
      (img.instructions.getD 1 default).data.name_len = 0) := by
  refine ⟨?_, by rw [List.length_cons, List.length_replicate], ?_⟩
  · intro filename tdata
    unfold mustache_load_data
    dsimp only
    rcases hld : mustache__load_data ⟨[], [], 0, [], .ok⟩ filename tdata
      with ⟨s, b⟩
    cases b
    · dsimp only
      rw [load_data_false_err _ _ _ _ hld]
      simp
    · dsimp only
      rcases hpl : mustache__parse_loop (s.data_len + 200) s with ⟨s2, b2⟩
      cases b2
      · dsimp only
        exact parse_loop_false_err _ _ _ hpl
      · dsimp only
        simp
  · have hp : ∀ b ∈ (97 :: List.replicate 65535 97), b ≠ 125 ∧ b ≠ 0 ∧
        isSpaceByte b = false := by
      intro b hb
      rcases List.mem_cons.mp hb with rfl | hb
      · exact ⟨by decide, by decide, by decide⟩
      · rw [List.eq_of_mem_replicate hb]
        exact ⟨by decide, by decide, by decide⟩
    have hl : (97 :: List.replicate 65535 97).length + 19 < 4294967296 := by
      rw [List.length_cons, List.length_replicate]
      norm_num
    have h := load_triple 97 (List.replicate 65535 97) hp hl
    refine ⟨_, h, rfl, ?_⟩
    rw [List.length_cons, List.length_replicate]
    rfl

end Mustache

/- *************************************************************************
Claim C3: the section-matching invariant vs the ignored push failures
************************************************************************* -/

namespace Mustache

/-- The block `"x<a"` repeated: with delimiters `<` / `a` every block
compiles to one `WRITE_TEXT` and one `WRITE_ARG` instruction. -/
def c3blocks : Nat → List Nat
  | 0 => []
  | k + 1 => 120 :: 60 :: 97 :: c3blocks k

/-- The template `"{{=< a=}}"` followed by `K` copies of `"x<a"`. -/
def c3Template (K : Nat) : List Nat :=
  [123, 123, 61, 60, 32, 97, 61, 125, 125] ++ c3blocks K

/-- Its data blob after `mustache__load_data`. -/
def c3Blob (K : Nat) : List Nat :=
  mustache__data_segment_write ⟨0, 3 * K + 22, 0, 0⟩ [] ++ c3Template K ++ [0]

/-- The parse frame after the delimiter change, positioned at block `k`. -/
def c3frame (K k : Nat) : LoaderFrame :=
  ⟨0, 22 + 3 * k, 3 * K + 22, 0, [60], [97]⟩

theorem c3blocks_length (k : Nat) : (c3blocks k).length = 3 * k := by
  induction k with
  | zero => rfl
  | succ n ih => simp [c3blocks, ih]; omega

theorem c3Template_length (K : Nat) : (c3Template K).length = 3 * K + 9 := by
  simp [c3Template, c3blocks_length]

theorem c3blocks_nonzero (k : Nat) : ∀ b ∈ c3blocks k, (b ≠ 0 : Bool) = true := by
  induction k with
  | zero => intro b hb; simp [c3blocks] at hb
  | succ n ih =>
    intro b hb
    simp only [c3blocks, List.mem_cons] at hb
    rcases hb with rfl | rfl | rfl | hb
    · decide
    · decide
    · decide
    · exact ih b hb

theorem c3Template_all_nonzero (K : Nat) :
    ∀ b ∈ c3Template K, (b ≠ 0 : Bool) = true := by
  intro b hb
  unfold c3Template at hb
  rw [List.mem_append] at hb
  rcases hb with hb | hb
  · fin_cases hb <;> decide
  · exact c3blocks_nonzero K b hb

theorem c3Blob_length (K : Nat) : (c3Blob K).length = 3 * K + 23 := by
  simp [c3Blob, data_segment_write_length, c3Template_length]
  omega

theorem c3Blob_drop13 (K : Nat) :
    (c3Blob K).drop 13 = c3Template K ++ [0] := by
  unfold c3Blob
  rw [List.append_assoc,
    show (13 : Nat) = (mustache__data_segment_write ⟨0, 3 * K + 22, 0, 0⟩
      []).length by rw [data_segment_write_length]; simp,
    List.drop_left]

theorem c3Blob_drop15 (K : Nat) :
    (c3Blob K).drop 15 =
      [61, 60, 32, 97, 61] ++ ([125, 125] ++ (c3blocks K ++ [0])) := by
  have h := c3Blob_drop13 K
  have h2 : (c3Blob K).drop 15 = ((c3Blob K).drop 13).drop 2 := by
    rw [List.drop_drop]
  rw [h2, h]
  simp [c3Template]

theorem c3Blob_drop16 (K : Nat) :
    (c3Blob K).drop 16 =
      [60, 32, 97, 61, 125, 125] ++ (c3blocks K ++ [0]) := by
  have h := c3Blob_drop13 K
  have h2 : (c3Blob K).drop 16 = ((c3Blob K).drop 13).drop 3 := by
    rw [List.drop_drop]
  rw [h2, h]
  simp [c3Template]

theorem c3Blob_drop18 (K : Nat) :
    (c3Blob K).drop 18 =
      [97, 61, 125, 125] ++ (c3blocks K ++ [0]) := by
  have h := c3Blob_drop13 K
  have h2 : (c3Blob K).drop 18 = ((c3Blob K).drop 13).drop 5 := by
    rw [List.drop_drop]
  rw [h2, h]
  simp [c3Template]

theorem c3_at15 (K : Nat) : byteAt (c3Blob K) 15 = 61 := by
  have := byteAt_drop (c3Blob K) 15 0
  rw [c3Blob_drop15] at this
  simpa using this.symm

theorem c3_at16 (K : Nat) : byteAt (c3Blob K) 16 = 60 := by
  have := byteAt_drop (c3Blob K) 16 0
  rw [c3Blob_drop16] at this
  simpa using this.symm

theorem c3_at17 (K : Nat) : byteAt (c3Blob K) 17 = 32 := by
  have := byteAt_drop (c3Blob K) 16 1
  rw [c3Blob_drop16] at this
  simpa [byteAt] using this.symm

theorem c3_at18 (K : Nat) : byteAt (c3Blob K) 18 = 97 := by
  have := byteAt_drop (c3Blob K) 18 0
  rw [c3Blob_drop18] at this
  simpa using this.symm

theorem c3_at19 (K : Nat) : byteAt (c3Blob K) 19 = 61 := by
  have := byteAt_drop (c3Blob K) 18 1
  rw [c3Blob_drop18] at this
  simpa [byteAt] using this.symm


end Mustache

namespace Mustache

theorem c3_find_open (K : Nat) :
    cstrFind (c3Blob K) 13 [123, 123] = some 13 := by
  have h := cstrFind_spec (c3Blob K) 13 [123, 123] 123 [123] []
    (c3Template K ++ [0]) rfl (by simpa using c3Blob_drop13 K)
    (by simp) ?_
  · simpa using h
  · rw [takeWhile_append_all (c3Template K) [0] (c3Template_all_nonzero K)]
    show ([123, 123]).isPrefixOf (c3Template K ++ [0].takeWhile (· ≠ 0)) = true
    unfold c3Template
    rfl

theorem c3_find_close (K : Nat) :
    cstrFind (c3Blob K) 15 [125, 125] = some 20 := by
  have h := cstrFind_spec (c3Blob K) 15 [125, 125] 125 [125]
    [61, 60, 32, 97, 61] ([125, 125] ++ (c3blocks K ++ [0])) rfl
    (c3Blob_drop15 K)
    (by intro b hb; fin_cases hb <;> exact ⟨by decide, by decide⟩) ?_
  · simpa using h
  · rw [takeWhile_append_all [125, 125] (c3blocks K ++ [0]) (by decide)]
    simp [List.isPrefixOf]

theorem c3Blob_drop22 (K : Nat) :
    (c3Blob K).drop 22 = c3blocks K ++ [0] := by
  unfold c3Blob c3Template
  rw [show (mustache__data_segment_write ⟨0, 3 * K + 22, 0, 0⟩ [] ++
      ([123, 123, 61, 60, 32, 97, 61, 125, 125] ++ c3blocks K) ++ [0]) =
      (mustache__data_segment_write ⟨0, 3 * K + 22, 0, 0⟩ [] ++
       [123, 123, 61, 60, 32, 97, 61, 125, 125]) ++ (c3blocks K ++ [0]) by
    simp [List.append_assoc]]
  rw [show (22 : Nat) = (mustache__data_segment_write ⟨0, 3 * K + 22, 0, 0⟩
      [] ++ [123, 123, 61, 60, 32, 97, 61, 125, 125]).length by
    rw [List.length_append, data_segment_write_length]; rfl]
  exact List.drop_left _ _

theorem c3Blob_dropBlock (K : Nat) : ∀ k, k ≤ K →
    (c3Blob K).drop (22 + 3 * k) = c3blocks (K - k) ++ [0] := by
  intro k
  induction k with
  | zero =>
    intro _
    simpa using c3Blob_drop22 K
  | succ n ih =>
    intro hk
    rw [show 22 + 3 * (n + 1) = (22 + 3 * n) + 3 from by ring]
    rw [← List.drop_drop]
    rw [ih (by omega)]
    rw [show K - n = (K - (n + 1)) + 1 from by omega]
    rfl

theorem c3_find_block_open (K k : Nat) (hk : k < K) :
    cstrFind (c3Blob K) (22 + 3 * k) [60] = some (22 + 3 * k + 1) := by
  have hd := c3Blob_dropBlock K k (by omega)
  rw [show K - k = (K - k - 1) + 1 from by omega] at hd
  have h := cstrFind_spec (c3Blob K) (22 + 3 * k) [60] 60 [] [120]
    (60 :: 97 :: (c3blocks (K - k - 1) ++ [0])) rfl
    (by simpa [c3blocks] using hd)
    (by intro b hb; fin_cases hb <;> exact ⟨by decide, by decide⟩) ?_
  · simpa using h
  · simp [List.isPrefixOf, List.takeWhile_cons]

theorem c3_find_block_close (K k : Nat) (hk : k < K) :
    cstrFind (c3Blob K) (22 + 3 * k + 2) [97] = some (22 + 3 * k + 2) := by
  have hd := c3Blob_dropBlock K k (by omega)
  rw [show K - k = (K - k - 1) + 1 from by omega] at hd
  have hd2 : (c3Blob K).drop (22 + 3 * k + 2) =
      97 :: (c3blocks (K - k - 1) ++ [0]) := by
    have h2 : (c3Blob K).drop (22 + 3 * k + 2) =
        ((c3Blob K).drop (22 + 3 * k)).drop 2 := by
      rw [List.drop_drop]
    rw [h2, hd]
    rfl
  have h := cstrFind_spec (c3Blob K) (22 + 3 * k + 2) [97] 97 [] []
    (97 :: (c3blocks (K - k - 1) ++ [0])) rfl (by simpa using hd2)
    (by simp) ?_
  · simpa using h
  · simp [List.isPrefixOf, List.takeWhile_cons]

theorem c3_block_at0 (K k : Nat) (hk : k < K) :
    byteAt (c3Blob K) (22 + 3 * k) = 120 := by
  have hd := c3Blob_dropBlock K k (by omega)
  rw [show K - k = (K - k - 1) + 1 from by omega] at hd
  have := byteAt_drop (c3Blob K) (22 + 3 * k) 0
  rw [hd] at this
  simpa [c3blocks, byteAt] using this.symm

theorem c3_block_at1 (K k : Nat) (hk : k < K) :
    byteAt (c3Blob K) (22 + 3 * k + 1) = 60 := by
  have hd := c3Blob_dropBlock K k (by omega)
  rw [show K - k = (K - k - 1) + 1 from by omega] at hd
  have := byteAt_drop (c3Blob K) (22 + 3 * k) 1
  rw [hd] at this
  simpa [c3blocks, byteAt] using this.symm

theorem c3_block_at2 (K k : Nat) (hk : k < K) :
    byteAt (c3Blob K) (22 + 3 * k + 2) = 97 := by
  have hd := c3Blob_dropBlock K k (by omega)
  rw [show K - k = (K - k - 1) + 1 from by omega] at hd
  have := byteAt_drop (c3Blob K) (22 + 3 * k) 2
  rw [hd] at this
  simpa [c3blocks, byteAt] using this.symm

theorem c3_divScan (K fuel : Nat) :
    divScan (c3Blob K) (fuel + 1 + 1) 16 19 = 17 := by
  norm_num [divScan, isSpaceByte, c3_at16, c3_at17]

end Mustache

namespace Mustache

set_option maxHeartbeats 1000000 in
/-- The first parse iteration of the C3 template: `{{=< a=}}` sets the
delimiters to `<` / `a` without emitting any instruction. -/
theorem c3_iteration0 (K : Nat) (hK : 3 * K + 22 < 4294967296)
    (l : List MInstr) (e : MErr) :
    mustache__parse_iteration
      ⟨l, c3Blob K, 3 * K + 22,
       [⟨0, 13, 3 * K + 22, 0, [123, 123], [125, 125]⟩], e⟩
      ⟨0, 13, 3 * K + 22, 0, [123, 123], [125, 125]⟩ [] =
    (⟨l, c3Blob K, 3 * K + 22, [c3frame K 0], e⟩, true) := by
  unfold mustache__parse_iteration
  dsimp only
  rw [c3_find_open K]
  dsimp only
  rw [if_neg (by omega : ¬ ((13:Nat) ≥ 3 * K + 22))]
  rw [if_neg (by simp : ¬ ((13:Nat) ≠ 13))]
  rw [show ((13:Nat) + ([123, 123] : List Nat).length) = 15 from rfl]
  rw [c3_find_close K]
  dsimp only
  rw [if_neg (by omega : ¬ ((20:Nat) ≥ 3 * K + 22))]
  rw [c3_at15 K]
  rw [if_neg (by decide : ¬ ((61:Nat) = 33))]
  rw [if_pos (show (61:Nat) = 61 from rfl)]
  rw [show (20:Nat) - 1 = 19 from rfl]
  rw [c3_at19 K]
  rw [if_neg (by decide : ¬ ((61:Nat) ≠ 61))]
  rw [show (15:Nat) + 1 = 16 from rfl]
  rw [show (19:Nat) - 1 = 18 from rfl]
  have htf : trimFwd (c3Blob K) ((c3Blob K).length + 1) 16 = 16 := by
    apply trimFwd_stop
    rw [c3_at16 K]
    decide
  have htb : trimBwd (c3Blob K) ((c3Blob K).length + 1) 18 = 18 := by
    apply trimBwd_stop
    rw [c3_at18 K]
    decide
  rw [htf, htb]
  rw [show (18:Nat) + 1 = 19 from rfl]
  rw [c3Blob_length K]
  rw [show 3 * K + 23 + 1 = 3 * K + 22 + 1 + 1 from by omega]
  rw [c3_divScan K (3 * K + 22)]
  rw [if_neg (by decide : ¬ ((17:Nat) = 19 ∨ (17:Nat) = 16))]
  rw [if_neg (by decide : ¬ ((17:Nat) - 16 ≥ 11))]
  rw [show (17:Nat) + 1 = 18 from rfl]
  have htf2 : trimFwd (c3Blob K) (3 * K + 22 + 1 + 1) 18 = 18 := by
    apply trimFwd_stop
    rw [c3_at18 K]
    decide
  rw [htf2]
  rw [if_neg (by decide : ¬ ((18:Nat) = 19))]
  rw [if_neg (by decide : ¬ ((19:Nat) - 18 ≥ 11))]
  rw [show (17:Nat) - 16 = 1 from rfl]
  rw [c3Blob_drop16 K, c3Blob_drop18 K]
  rw [take_append_left _ _ 1 (by simp), take_append_left _ _ 1 (by simp)]
  rw [show ([60, 32, 97, 61, 125, 125] : List Nat).take 1 = [60] from rfl]
  rw [show ([97, 61, 125, 125] : List Nat).take 1 = [97] from rfl]
  rw [show ((20:Nat) : Int) + (([125, 125] : List Nat).length : Int) =
    ((22 : Nat) : Int) from by push_cast; norm_num]
  rw [u32_of_lt 22 (by omega)]
  simp [c3frame]

end Mustache

namespace Mustache

theorem push_blob (s : LoaderState) (i : MInstr) :
    (mustache__instruction_push s i).1.blob = s.blob := by
  unfold mustache__instruction_push
  split <;> rfl

set_option maxHeartbeats 1000000 in
/-- One block `"x<a"` under the `<` / `a` delimiters: a one-byte
`WRITE_TEXT` (the `x`) and an empty-name `WRITE_ARG`, with the frame
advancing three bytes.  The pushes are left symbolic so the lemma holds on
both sides of the `INT32_MAX` instruction cap. -/
theorem c3_block_iteration (K k : Nat) (hk : k < K)
    (hK : 3 * K + 25 < 4294967296) (l : List MInstr) (e : MErr) :
    mustache__parse_iteration
      ⟨l, c3Blob K, 3 * K + 22, [c3frame K k], e⟩ (c3frame K k) [] =
    ({(mustache__instruction_push
        ((mustache__instruction_push
          ⟨l, c3Blob K, 3 * K + 22, [c3frame K k], e⟩
          ⟨.writeText, {name_pos := 22 + 3 * k, name_len := 1}⟩).1)
        ⟨.writeArg, {name_pos := 22 + 3 * k + 2, name_len := 0}⟩).1
      with frames := [c3frame K (k + 1)]}, true) := by
  unfold mustache__parse_iteration
  dsimp only [c3frame]
  rw [c3_find_block_open K k hk]
  dsimp only
  rw [if_neg (by omega : ¬ (22 + 3 * k + 1 ≥ 3 * K + 22))]
  rw [if_pos (by omega : (22 + 3 * k + 1 : Nat) ≠ 22 + 3 * k)]
  rw [show ((22 + 3 * k + 1 : Nat) : Int) - ((22 + 3 * k : Nat) : Int) =
    ((1 : Nat) : Int) from by push_cast; ring]
  rw [u16_of_lt 1 (by omega)]
  rw [show (([60] : List Nat)).length = 1 from rfl]
  rw [show 22 + 3 * k + 1 + 1 = 22 + 3 * k + 2 from by omega]
  rw [push_blob]
  dsimp only
  rw [c3_find_block_close K k hk]
  dsimp only
  rw [if_neg (by omega : ¬ (22 + 3 * k + 2 ≥ 3 * K + 22))]
  rw [c3_block_at2 K k hk]
  rw [if_neg (by decide : ¬ ((97:Nat) = 33))]
  rw [if_neg (by decide : ¬ ((97:Nat) = 61))]
  rw [if_neg (by decide : ¬ ((97:Nat) = 94 ∨ (97:Nat) = 35))]
  rw [if_neg (by decide : ¬ ((97:Nat) = 62))]
  rw [if_neg (by decide : ¬ ((97:Nat) = 47))]
  norm_num
  have htf3 : trimFwd (c3Blob K) ((c3Blob K).length + 1) (22 + 3 * k + 2) =
      22 + 3 * k + 2 := by
    apply trimFwd_stop
    rw [c3_block_at2 K k hk]
    decide
  have htb3 : trimBwd (c3Blob K) ((c3Blob K).length + 1) (22 + 3 * k + 1) =
      22 + 3 * k + 1 := by
    apply trimBwd_stop
    rw [c3_block_at1 K k hk]
    decide
  rw [htf3, htb3]
  rw [show ((22 + 3 * k + 1 : Nat) : Int) + 1 -
    ((22 + 3 * k + 2 : Nat) : Int) = ((0 : Nat) : Int) from by
    push_cast; ring]
  rw [u16_of_lt 0 (by omega)]
  rw [u32_of_lt (22 + 3 * k + 2) (by omega)]
  simp only [c3frame, Prod.mk.injEq, LoaderState.mk.injEq,
    List.cons.injEq, LoaderFrame.mk.injEq]
  rw [show (22 + 3 * (k : Int) + 2 + 1) =
    ((22 + 3 * (k + 1) : Nat) : Int) from by push_cast; ring]
  rw [u32_of_lt (22 + 3 * (k + 1)) (by omega)]
  simp

end Mustache

namespace Mustache

/-- The instruction list after `k` fully pushed blocks. -/
def c3list : Nat → List MInstr
  | 0 => [⟨.sectionStart, {}⟩]
  | k + 1 => c3list k ++
      [⟨.writeText, {name_pos := 22 + 3 * k, name_len := 1}⟩,
       ⟨.writeArg, {name_pos := 22 + 3 * k + 2, name_len := 0}⟩]

theorem c3list_length (k : Nat) : (c3list k).length = 2 * k + 1 := by
  induction k with
  | zero => rfl
  | succ n ih =>
    simp [c3list, ih]
    omega

theorem push_ok (s : LoaderState) (i : MInstr)
    (h : s.instructions.length < 2147483647) :
    (mustache__instruction_push s i).1 =
      {s with instructions := s.instructions ++ [i]} := by
  unfold mustache__instruction_push
  rw [if_neg (by omega)]

theorem push_fail (s : LoaderState) (i : MInstr)
    (h : ¬ s.instructions.length < 2147483647) :
    (mustache__instruction_push s i).1 = {s with err := .tooDeep} := by
  unfold mustache__instruction_push
  rw [if_pos (by omega)]

/-- Parsing the first `j` blocks (all below the instruction cap) appends
exactly `c3list j`'s instructions. -/
theorem c3_phaseB1 (K : Nat) (hK : 3 * K + 25 < 4294967296)
    (hcap : 2 * K ≤ 2147483648) :
    ∀ j, j ≤ K - 1 → ∀ m,
      mustache__parse_loop (j + m)
        ⟨c3list 0, c3Blob K, 3 * K + 22, [c3frame K 0], .ok⟩ =
      mustache__parse_loop m
        ⟨c3list j, c3Blob K, 3 * K + 22, [c3frame K j], .ok⟩ := by
  intro j
  induction j with
  | zero =>
    intro _ m
    rw [Nat.zero_add]
  | succ n ih =>
    intro hn m
    rw [show n + 1 + m = n + (m + 1) from by omega]
    rw [ih (by omega) (m + 1)]
    rw [parse_loop_iter _ _ _ _ _ rfl (by dsimp only [c3frame]; omega)
      (c3_block_iteration K n (by omega) hK (c3list n) .ok)]
    congr 1
    have hpush1 := push_ok
      (⟨c3list n, c3Blob K, 3 * K + 22, [c3frame K n], .ok⟩ : LoaderState)
      ⟨.writeText, {name_pos := 22 + 3 * n, name_len := 1}⟩
      (by show (c3list n).length < 2147483647
          rw [c3list_length]
          omega)
    rw [hpush1]
    rw [push_ok _ _ (by
      show ((c3list n) ++
        ([⟨.writeText, {name_pos := 22 + 3 * n, name_len := 1}⟩] :
          List MInstr)).length < 2147483647
      simp only [List.length_append, c3list_length, List.length_cons,
        List.length_nil]
      omega)]
    simp [c3list, List.append_assoc]

end Mustache

namespace Mustache

/-- Block 2^30 - 1: the instruction list has reached `INT32_MAX - 1`
entries plus the pseudo instruction, both pushes fail, and the failures are
ignored — the frame still advances. -/
theorem c3_phaseB2 (m : Nat) :
    mustache__parse_loop (1 + m)
      ⟨c3list 1073741823, c3Blob 1073741824, 3 * 1073741824 + 22,
       [c3frame 1073741824 1073741823], .ok⟩ =
    mustache__parse_loop m
      ⟨c3list 1073741823, c3Blob 1073741824, 3 * 1073741824 + 22,
       [c3frame 1073741824 1073741824], .tooDeep⟩ := by
  rw [show 1 + m = m + 1 from by omega]
  rw [parse_loop_iter _ _ _ _ _ rfl (by dsimp only [c3frame]; omega)
    (c3_block_iteration 1073741824 1073741823 (by omega) (by omega)
      (c3list 1073741823) .ok)]
  refine congrArg _ ?_
  generalize hL : c3list 1073741823 = L
  have hlen : L.length = 2147483647 := by
    rw [← hL, c3list_length]
  have hpush1 := push_fail
    (⟨L, c3Blob 1073741824, 3 * 1073741824 + 22,
      [c3frame 1073741824 1073741823], .ok⟩ : LoaderState)
    ⟨.writeText, {name_pos := 22 + 3 * 1073741823, name_len := 1}⟩
    (by show ¬ L.length < 2147483647
        rw [hlen]
        omega)
  rw [hpush1]
  rw [push_fail _ _ (by
    show ¬ L.length < 2147483647
    rw [hlen]
    omega)]

theorem c3_inst_start (K : Nat) :
    (mustache__data_segment_read (c3Blob K) 0).inst_start = 0 := by
  simp [mustache__data_segment_read, c3Blob, mustache__data_segment_write,
    byteAt]

theorem patchInstrEnd_length (l : List MInstr) (i v : Nat) :
    (patchInstrEnd l i v).length = l.length := by
  simp [patchInstrEnd]

/-- The pop step: the loader back-patches the pseudo `SECTION_START` with
the (capped) instruction count and its closing `SECTION_END` push fails,
again ignored. -/
theorem c3_pop (m : Nat) :
    mustache__parse_loop (m + 1)
      ⟨c3list 1073741823, c3Blob 1073741824, 3 * 1073741824 + 22,
       [c3frame 1073741824 1073741824], .tooDeep⟩ =
    mustache__parse_loop m
      ⟨patchInstrEnd (c3list 1073741823) 0 2147483647,
       c3Blob 1073741824, 3 * 1073741824 + 22, [], .tooDeep⟩ := by
  rw [parse_loop_pop _ _ _ _ rfl (by dsimp only [c3frame]; omega) rfl]
  simp only [c3frame]
  refine congrArg _ ?_
  generalize hL : c3list 1073741823 = L
  have hlen : L.length = 2147483647 := by
    rw [← hL, c3list_length]
  rw [c3_inst_start]
  rw [hlen]
  rw [push_fail _ _ (by
    show ¬ (patchInstrEnd L 0 2147483647).length < 2147483647
    rw [patchInstrEnd_length, hlen]
    omega)]

end Mustache

namespace Mustache

theorem c3_load_root :
    mustache__load_data ⟨[], [], 0, [], .ok⟩ [] (c3Template 1073741824) =
      ((⟨c3list 0, c3Blob 1073741824, 3 * 1073741824 + 22,
        [⟨0, 13, 3 * 1073741824 + 22, 0, [123, 123], [125, 125]⟩],
        .ok⟩ : LoaderState), true) := by
  rw [load_data_root _ (by rw [c3Template_length]; omega)]
  rw [c3Template_length]
  rw [show 3 * 1073741824 + 9 + 13 = 3 * 1073741824 + 22 from by omega]
  rfl

/-- The `2^30`-block template compiles "successfully": the returned image
carries `MUSTACHE_OK` even though both pushes of the final block and the
closing `SECTION_END` push all failed with the list frozen at
`INT32_MAX` entries. -/
theorem load_c3 :
    mustache_load_data [] (c3Template 1073741824) =
      (some ⟨patchInstrEnd (c3list 1073741823) 0 2147483647,
        (c3Blob 1073741824).take (3 * 1073741824 + 22)⟩, .ok) := by
  have h2 : mustache__parse_loop (3 * 1073741824 + 22 + 200)
      (⟨c3list 0, c3Blob 1073741824, 3 * 1073741824 + 22,
        [⟨0, 13, 3 * 1073741824 + 22, 0, [123, 123], [125, 125]⟩],
        .ok⟩ : LoaderState) =
      ((⟨patchInstrEnd (c3list 1073741823) 0 2147483647,
        c3Blob 1073741824, 3 * 1073741824 + 22, [], .tooDeep⟩ :
        LoaderState), true) := by
    rw [show 3 * 1073741824 + 22 + 200 =
      (1073741823 + (1 + (2147483868 + 1))) + 1 from by norm_num]
    rw [parse_loop_iter _ _ _ _ _ rfl (by dsimp only; omega)
      (c3_iteration0 1073741824 (by omega) (c3list 0) .ok)]
    rw [c3_phaseB1 1073741824 (by omega) (by omega) 1073741823 (by omega)
      (1 + (2147483868 + 1))]
    rw [c3_phaseB2 (2147483868 + 1)]
    rw [c3_pop 2147483868]
    rw [show (2147483868 : Nat) = 2147483867 + 1 from by norm_num]
    exact parse_loop_done _ _ rfl
  rw [mustache_load_data_eq [] (c3Template 1073741824) _ _ c3_load_root h2]

theorem c3list_head (k : Nat) :
    (c3list k).getD 0 default = ⟨.sectionStart, {}⟩ := by
  induction k with
  | zero => rfl
  | succ n ih =>
    rw [c3list, List.getD_eq_getElem?_getD, List.getElem?_append,
      if_pos (by rw [c3list_length]; omega),
      ← List.getD_eq_getElem?_getD]
    exact ih

theorem c3_final_getD0 (k v : Nat) :
    (patchInstrEnd (c3list k) 0 v).getD 0 default =
      ⟨.sectionStart, {end_ := v}⟩ := by
  have hh := c3list_head k
  unfold patchInstrEnd
  cases hc : c3list k with
  | nil =>
    have hl := c3list_length k
    rw [hc] at hl
    simp at hl
  | cons a t =>
    rw [hc] at hh
    simp only [List.getD_cons_zero] at hh
    subst hh
    simp

end Mustache

namespace Mustache

/-- Claim C3: a counterexample image.  The in-memory template `{{=< a=}}`
followed by 2^30 copies of `x<a` compiles with a non-NULL image and
`MUSTACHE_OK`, because every failing `mustache__instruction_push` (the
text and argument pushes of the last block and the final `SECTION_END`)
is ignored by its caller.  The image's instruction 0 is a
`SECTION_START` whose recorded end equals the instruction count
`INT32_MAX`: it points one past the last instruction, so no
`SECTION_END` is recorded there — the claimed section-matching invariant
fails (in C, reading `instructions[end]` is out of bounds). -/
theorem C3_theorem :
    ∃ img : MImage,
      mustache_load_data [] (c3Template 1073741824) = (some img, .ok) ∧
      img.instructions.length = 2147483647 ∧
      (img.instructions.getD 0 default).tag = .sectionStart ∧
      (img.instructions.getD 0 default).data.end_ =
        img.instructions.length ∧
      (img.instructions.getD ((img.instructions.getD 0 default).data.end_)
        default).tag ≠ .sectionEnd := by
  refine ⟨_, load_c3, ?_, ?_, ?_, ?_⟩
  · rw [patchInstrEnd_length, c3list_length]
  · rw [c3_final_getD0]
  · rw [c3_final_getD0, patchInstrEnd_length, c3list_length]
  · rw [c3_final_getD0]
    dsimp only
    rw [List.getD_eq_default]
    · simp
    · rw [patchInstrEnd_length, c3list_length]

end Mustache
